import Mathlib

/-!
Shallow embedding of the AMnS-trafficjam repository (extended multi-lane
Nagel-Schreckenberg traffic model plus its calibration search), translated
from `src/simulation/NagelSchreckenbergMultiple.py` and
`src/simulation/Calibration.py`.

Conventions of the embedding:
* the road is a `lanes x road_length` matrix of `Int` cells, `-1` = empty,
  `-2` = closed, any value `>= 0` a vehicle identifier, exactly as in the
  Python code;
* Python dicts keyed by integers become association lists (keys are unique
  in every reachable state, so first-match lookup agrees with dict lookup);
* the stream produced by `random.random()` is passed in explicitly as a
  list of rationals consumed in program order, and the per-step
  `np.random.permutation(lanes)` is passed in as a list of lane indices;
* natural-number subtraction `a - b` coincides with Python's
  `max(a - b, 0)` at every place it is used (`pos - v_max` mirrors the
  explicit `max(0, pos - self.v_max)`, `gap - 1` has `gap >= 1`, and
  `current_step - start_time` has `start_time <= current_step`).
-/

/-- Value of cell `(lane, pos)` of a road matrix; out-of-range reads
return the empty marker `-1` (the Python code never reads out of range). -/
def cellAt (road : List (List Int)) (lane pos : Nat) : Int :=
  (road.getD lane []).getD pos (-1)

/-- Write value `v` into cell `(lane, pos)` of a road matrix. -/
def setCell (road : List (List Int)) (lane pos : Nat) (v : Int) :
    List (List Int) :=
  road.set lane ((road.getD lane []).set pos v)

/-- `True` iff every cell of `lane` between positions `lo` and `hi`
(inclusive) equals `-1`, i.e. is empty.  This is the shape of the
occupancy scans in the overtaking and merging rules. -/
def allEmpty (road : List (List Int)) (lane lo hi : Nat) : Bool :=
  (List.range (hi + 1 - lo)).all fun i => cellAt road lane (lo + i) == -1

/-- First-match lookup in an association list, mirroring Python dict
`get`.  Keys are unique in every reachable engine state. -/
def lookupNat (m : List (Nat × Nat)) (k : Nat) : Option Nat :=
  (m.find? fun kv => kv.1 == k).map Prod.snd

/-- Lookup with a default value (`dict.get(k, d)` / subscript access). -/
def lookupD (m : List (Nat × Nat)) (k d : Nat) : Nat :=
  (lookupNat m k).getD d

/-- A position counts as free for the gap scans when it is past the end of
the road (`pos + gap >= road_length` lets a car accelerate off the end) or
its cell is empty.  Mirrors the loop condition of rule 2. -/
def isFreeCell (road : List (List Int)) (roadLen lane p : Nat) : Bool :=
  roadLen ≤ p || cellAt road lane p == -1

/-- Number of consecutive free positions in `lane` starting at `pos + 1`,
capped at `fuel`.  `freeRun road roadLen lane pos v` equals the value
`gap - 1` produced by the while-loops of rules 2 and 3 (`v = min(v, gap-1)`
and `v_overtake = gap - 1`). -/
def freeRun (road : List (List Int)) (roadLen lane pos : Nat) :
    Nat → Nat
  | 0 => 0
  | fuel + 1 =>
    if isFreeCell road roadLen lane (pos + 1) then
      freeRun road roadLen lane (pos + 1) fuel + 1
    else 0

/-- Rules 1 and 2: acceleration capped at `v_max`, then truncation of the
speed to the gap ahead in the car's own lane.  Returns
`(v_target, gap_speed)`. -/
def gapStage (road : List (List Int)) (roadLen v_max lane pos v0 : Nat) :
    Nat × Nat :=
  let v1 := min (v0 + 1) v_max
  (v1, freeRun road roadLen lane pos v1)

/-- Overtaking rule: with multi-lane rules on, a car that was slowed by the
gap and has a lane to its left checks the left lane for free space from
`pos - v_max` back up to `pos` and, if the gap-limited speed reachable on
the left lane strictly exceeds its own, switches left with that speed.
Returns `(speed, lane)` after the rule. -/
def overtakeStage (road : List (List Int))
    (roadLen v_max : Nat) (multi : Bool) (lane pos v_target v2 : Nat) :
    Nat × Nat :=
  let left_lane := lane - 1
  if multi ∧ v2 < v_target ∧ lane ≠ left_lane then
    if allEmpty road left_lane (pos - v_max) pos then
      let v_overtake := freeRun road roadLen left_lane pos v_target
      if v2 < v_overtake then (v_overtake, left_lane) else (v2, lane)
    else (v2, lane)
  else (v2, lane)

/-- Merging rule: with multi-lane rules on, a car that is not on the
rightmost lane and did not switch during the overtaking rule checks the
right lane from `pos - v_max` through `min(pos + v, road_length - 1)` and
switches right whenever that whole window is empty (no speed-gain
condition; the speed is unchanged). -/
def mergeStage (road : List (List Int))
    (roadLen lanes v_max : Nat) (multi : Bool) (lane pos : Nat)
    (ot : Nat × Nat) : Nat × Nat :=
  let right_lane := min (lane + 1) (lanes - 1)
  if multi ∧ lane ≠ right_lane ∧ ot.2 = lane then
    if allEmpty road right_lane (pos - v_max) (min (pos + ot.1) (roadLen - 1))
    then (ot.1, right_lane)
    else ot
  else ot

/-- Rules 1-4 for a single car (everything before the random slowdown):
final pre-dawdle speed and target lane, computed against the previous
road state. -/
def planCar (road : List (List Int))
    (roadLen lanes v_max : Nat) (multi : Bool) (lane pos v0 : Nat) :
    Nat × Nat :=
  let g := gapStage road roadLen v_max lane pos v0
  let ot := overtakeStage road roadLen v_max multi lane pos g.1 g.2
  mergeStage road roadLen lanes v_max multi lane pos ot

/-- The engine state: a direct translation of the attributes of class
`NagelSchreckenbergMultiple`.  The field `lag_parameter` models the
attribute of that name which exists only after `set_parameters` has been
called (the constructor stores its dawdle argument in `p`, the attribute
actually read by `step`). -/
structure NagelSchreckenbergMultiple where
  road_length : Nat
  lanes : Nat
  v_max : Nat
  p : ℚ
  entry_rate : ℚ
  multi_lane_rules : Bool
  lag_parameter : Option ℚ
  road : List (List Int)
  velocities : List (Nat × Nat)
  next_car_id : Nat
  entry_queue : List Nat
  current_step : Nat
  start_times : List (Nat × Nat)
  times_taken : List (Nat × Nat)
  closing_end_times : List (Nat × Nat)
deriving Repr, DecidableEq

namespace NagelSchreckenbergMultiple

/-- `__init__`: the constructor stores every argument unchanged (there is
no validation and no clamping anywhere in it) and builds an empty road. -/
def init (road_length lanes v_max : Nat) (lag_param entry_rate : ℚ)
    (multi_lane_rules : Bool) : NagelSchreckenbergMultiple :=
  { road_length := road_length
    lanes := lanes
    v_max := v_max
    p := lag_param
    entry_rate := entry_rate
    multi_lane_rules := multi_lane_rules
    lag_parameter := none
    road := List.replicate lanes (List.replicate road_length (-1))
    velocities := []
    next_car_id := 0
    entry_queue := []
    current_step := 0
    start_times := []
    times_taken := []
    closing_end_times := [] }

/-- The `(lane, pos)` pairs of all cells holding a car identifier, in the
row-major order produced by `np.argwhere(self.road >= 0)`. -/
def carIndices (e : NagelSchreckenbergMultiple) : List (Nat × Nat) :=
  (List.range e.lanes).flatMap fun l =>
    (List.range e.road_length).filterMap fun q =>
      if 0 ≤ cellAt e.road l q then some (l, q) else none

/-- Mutable data threaded through the per-car loop of `step`: the
next-state road and velocity map being built, the travel-time ledger
(extended in place when a car exits), and the unconsumed random draws. -/
structure StepState where
  newRoad : List (List Int)
  newVel : List (Nat × Nat)
  ledger : List (Nat × Nat)
  draws : List ℚ
deriving Repr, DecidableEq

/-- Rule 5, the random slowdown: when the speed is positive one draw is
consumed, and the speed drops by one exactly when that draw is below the
dawdle probability `p`.  Returns the final speed and the leftover draws. -/
def dawdle (p : ℚ) (v : Nat) (draws : List ℚ) : Nat × List ℚ :=
  if 0 < v then
    (if draws.headD 1 < p then v - 1 else v, draws.tail)
  else (v, draws)

/-- Body of the per-car loop of `step`: plan the car's lane and pre-dawdle
speed, apply the random slowdown, then either write the car into the
next-state grid or record its travel time if it leaves the road. -/
def processCar (e : NagelSchreckenbergMultiple) (s : StepState)
    (lane pos : Nat) : StepState :=
  let car_id := (cellAt e.road lane pos).toNat
  let v0 := lookupD e.velocities car_id 0
  let plan := planCar e.road e.road_length e.lanes e.v_max
    e.multi_lane_rules lane pos v0
  let vd := dawdle e.p plan.1 s.draws
  let new_pos := pos + vd.1
  if new_pos < e.road_length then
    { s with newRoad := setCell s.newRoad plan.2 new_pos (Int.ofNat car_id)
             newVel := s.newVel ++ [(car_id, vd.1)]
             draws := vd.2 }
  else
    match lookupNat e.start_times car_id with
    | some t =>
      { s with ledger := s.ledger ++ [(car_id, e.current_step - t)]
               draws := vd.2 }
    | none => { s with draws := vd.2 }

/-- The car-generation loop of `step`: while `remaining > 0`, one draw is
consumed and a fresh car is enqueued when the draw is below `remaining`;
then `remaining` decreases by one.  The fuel bounds the iteration count;
`entry_rate.num.toNat` always suffices because the guard fails once
`remaining <= 0`.  Returns the leftover draws, the queue, the start-time
map and the next car identifier. -/
def entryLoop (remaining : ℚ) (fuel : Nat) (draws : List ℚ)
    (queue : List Nat) (starts : List (Nat × Nat)) (nid stepNo : Nat) :
    List ℚ × List Nat × List (Nat × Nat) × Nat :=
  match fuel with
  | 0 => (draws, queue, starts, nid)
  | fuel + 1 =>
    if 0 < remaining then
      if draws.headD 1 < remaining then
        entryLoop (remaining - 1) fuel draws.tail (queue ++ [nid])
          (starts ++ [(nid, stepNo)]) (nid + 1) stepNo
      else
        entryLoop (remaining - 1) fuel draws.tail queue starts nid stepNo
    else (draws, queue, starts, nid)

/-- The admission loop of `step`: lanes are visited in the randomly drawn
order `perm`; each lane whose entry cell is still empty receives the
oldest waiting car, which enters with speed `v_max`. -/
def placeCars (v_max : Nat) (perm : List Nat)
    (road : List (List Int)) (vel : List (Nat × Nat)) (queue : List Nat) :
    List (List Int) × List (Nat × Nat) × List Nat :=
  perm.foldl
    (fun acc lane =>
      match acc.2.2 with
      | [] => acc
      | cid :: rest =>
        if cellAt acc.1 lane 0 == -1 then
          (setCell acc.1 lane 0 (Int.ofNat cid),
            acc.2.1 ++ [(cid, v_max)], rest)
        else acc)
    (road, vel, queue)

/-- The opening phase of `step`: a fresh all-empty next-state road, with
every still-closed lane forced to the closed marker. -/
def stepClosures (e : NagelSchreckenbergMultiple) : List (List Int) :=
  e.closing_end_times.foldl
    (fun r le =>
      if e.current_step < le.2 then
        r.set le.1 (List.replicate e.road_length (-2))
      else r)
    (List.replicate e.lanes (List.replicate e.road_length (-1)))

/-- The car-movement phase of `step`: fold the per-car body over every car
of the previous road in row-major order. -/
def stepCars (e : NagelSchreckenbergMultiple) (draws : List ℚ) :
    StepState :=
  (carIndices e).foldl (fun s lp => processCar e s lp.1 lp.2)
    ⟨stepClosures e, [], e.times_taken, draws⟩

/-- The car-generation phase of `step`. -/
def stepEntry (e : NagelSchreckenbergMultiple) (draws : List ℚ) :
    List ℚ × List Nat × List (Nat × Nat) × Nat :=
  entryLoop e.entry_rate e.entry_rate.num.toNat draws e.entry_queue
    e.start_times e.next_car_id e.current_step

/-- `step`: advance the model by one second.  `draws` is the sequence of
`random.random()` values consumed during this step and `perm` the lane
order drawn by `np.random.permutation(self.lanes)`. -/
def step (e : NagelSchreckenbergMultiple) (draws : List ℚ)
    (perm : List Nat) : NagelSchreckenbergMultiple :=
  { e with
    road := (placeCars e.v_max perm (stepCars e draws).newRoad
      (stepCars e draws).newVel (stepEntry e (stepCars e draws).draws).2.1).1
    velocities := (placeCars e.v_max perm (stepCars e draws).newRoad
      (stepCars e draws).newVel (stepEntry e (stepCars e draws).draws).2.1).2.1
    entry_queue := (placeCars e.v_max perm (stepCars e draws).newRoad
      (stepCars e draws).newVel (stepEntry e (stepCars e draws).draws).2.1).2.2
    next_car_id := (stepEntry e (stepCars e draws).draws).2.2.2
    start_times := (stepEntry e (stepCars e draws).draws).2.2.1
    times_taken := (stepCars e draws).ledger
    current_step := e.current_step + 1 }

/-- `get_road`: the road snapshot, with every car identifier replaced by
the car's current speed (`-1` when the identifier has no velocity entry)
and empty/closed markers kept. -/
def get_road (e : NagelSchreckenbergMultiple) : List (List Int) :=
  e.road.map fun row => row.map fun x =>
    if 0 ≤ x then ((lookupNat e.velocities x.toNat).map Int.ofNat).getD (-1)
    else x

/-- `get_time_stats`: the recorded travel times, identifiers dropped. -/
def get_time_stats (e : NagelSchreckenbergMultiple) : List Nat :=
  e.times_taken.map Prod.snd

/-- `reset_stats`: clears the travel-time ledger and nothing else. -/
def reset_stats (e : NagelSchreckenbergMultiple) :
    NagelSchreckenbergMultiple :=
  { e with times_taken := [] }

/-- `reset_queue`: clears the entry queue and nothing else. -/
def reset_queue (e : NagelSchreckenbergMultiple) :
    NagelSchreckenbergMultiple :=
  { e with entry_queue := [] }

/-- `set_parameters`: assigns the attributes `lag_parameter` and
`entry_rate`.  Note that it writes `lag_parameter`, not the attribute `p`
that `step` reads for the random-slowdown rule. -/
def set_parameters (e : NagelSchreckenbergMultiple) (lag entry : ℚ) :
    NagelSchreckenbergMultiple :=
  { e with lag_parameter := some lag, entry_rate := entry }

/-- Replace the binding of `k` in an association list (insertion for a new
key, in-place update for an existing one, matching dict assignment). -/
def upsert (m : List (Nat × Nat)) (k v : Nat) : List (Nat × Nat) :=
  if m.any fun kv => kv.1 == k then
    m.map fun kv => if kv.1 == k then (k, v) else kv
  else m ++ [(k, v)]

/-- `close_lane`: record the closure end time and immediately overwrite
the whole lane with the closed marker, discarding any cars on it. -/
def close_lane (e : NagelSchreckenbergMultiple) (lane duration : Nat) :
    NagelSchreckenbergMultiple :=
  { e with
    closing_end_times :=
      upsert e.closing_end_times lane (e.current_step + duration)
    road := e.road.set lane (List.replicate e.road_length (-2)) }

/-- A run script: per step, the random draws and the lane permutation. -/
def run (e : NagelSchreckenbergMultiple)
    (script : List (List ℚ × List Nat)) : NagelSchreckenbergMultiple :=
  script.foldl (fun a sc => step a sc.1 sc.2) e

end NagelSchreckenbergMultiple

/-- Configuration of the calibration search, the constructor arguments of
class `Calibration` that the loop reads (`road_length`, `lanes` and
`repetitions` only shape the black-box objective). -/
structure Calibration where
  target_travel_time : ℚ
  convergence_range : ℚ
  lag_parameter_min : ℚ
  lag_parameter_max : ℚ
  entry_rate_min : ℚ
  entry_rate_max : ℚ
deriving Repr, DecidableEq

namespace Calibration

/-- Step-size multiplier used when the distance to target did not worsen:
`0.9 - 0.5 * counter / 100`. -/
def shrinkFactor (counter : Nat) : ℚ := 9 / 10 - (counter : ℚ) / 200

/-- Step-size multiplier used when the distance to target worsened:
`1.1 - 0.1 * counter / 100`. -/
def growFactor (counter : Nat) : ℚ := 11 / 10 - (counter : ℚ) / 1000

/-- `max(min(x, hi), lo)`, the parameter clamping used by the loop. -/
def clamp (x lo hi : ℚ) : ℚ := max (min x hi) lo

/-- The mutable loop variables of `calibrate`: current parameter pair,
current step sizes, previous distance (`none` models the initial
`math.inf`) and the iteration counter. -/
structure IterState where
  lag : ℚ
  entry : ℚ
  lagStep : ℚ
  entryStep : ℚ
  dist : Option ℚ
  counter : Nat
deriving Repr, DecidableEq, Inhabited

/-- The result surface of `calibrate`: the attributes
`result_lag_parameter`, `result_entry_rate` and `result_travel_time` set
during the last executed iteration, together with that iteration's number,
its distance to target and the both-edged flag. -/
structure CalibRes where
  counter : Nat
  result_lag_parameter : ℚ
  result_entry_rate : ℚ
  result_travel_time : ℚ
  dist : ℚ
  bothEdged : Bool
deriving Repr, DecidableEq, Inhabited

/-- One iteration of the `calibrate` loop body, given the
repetition-averaged travel time `tt` measured at the current parameter
pair (the parallel simulation runs are the black-box objective; their
average enters the loop only through this number).  Returns the next loop
state and the result surface as of this iteration. -/
def calibIterate (c : Calibration) (tt : ℚ) (s : IterState) :
    IterState × CalibRes :=
  let counter := s.counter + 1
  let dist := |tt - c.target_travel_time|
  let improved : Bool := match s.dist with
    | none => true
    | some dOld => decide (dist ≤ dOld)
  let is_larger : Bool := decide (c.target_travel_time < tt)
  let sign : ℚ := if is_larger then -1 else 1
  let lag2 := clamp (s.lag + sign * s.lagStep)
    c.lag_parameter_min c.lag_parameter_max
  let lagEdged : Bool := lag2 == s.lag
  let entry2 := clamp (s.entry + sign * s.entryStep)
    c.entry_rate_min c.entry_rate_max
  let entryEdged : Bool := entry2 == s.entry
  let mult := if improved then shrinkFactor counter else growFactor counter
  let lagStep2 := max (s.lagStep * mult)
    ((c.lag_parameter_max - c.lag_parameter_min) / 100)
  let entryStep2 := max (s.entryStep * mult)
    ((c.entry_rate_max - c.entry_rate_min) / 100)
  let bothEdged := lagEdged && entryEdged
  (⟨lag2, entry2, lagStep2, entryStep2, some dist, counter⟩,
   ⟨counter, s.lag, s.entry, tt, dist, bothEdged⟩)

/-- Whether the `while` guard `dist > convergence_range and counter < 100`
holds for the current loop state (`none` is the initial `math.inf`). -/
def loopGuard (c : Calibration) (s : IterState) : Bool :=
  (match s.dist with
    | none => true
    | some d => decide (c.convergence_range < d)) && decide (s.counter < 100)

/-- The `calibrate` loop: repeats `calibIterate` while the guard holds,
breaking early when both parameters were edged.  `meas counter` is the
averaged travel time measured during iteration number `counter`.  The fuel
is structural only; `100` suffices because the counter grows by one per
iteration and the guard requires `counter < 100`. -/
def calibLoop (c : Calibration) (meas : Nat → ℚ) (s : IterState)
    (res : Option CalibRes) : Nat → Option CalibRes
  | 0 => res
  | fuel + 1 =>
    if loopGuard c s then
      let o := calibIterate c (meas (s.counter + 1)) s
      if o.2.bothEdged then some o.2
      else calibLoop c meas o.1 (some o.2) fuel
    else res

/-- `calibrate` with explicit initial parameters and step sizes, returning
the result surface (`none` never actually occurs: the loop always runs at
least one iteration). -/
def calibrate (c : Calibration) (meas : Nat → ℚ)
    (lag entry lagStep entryStep : ℚ) : Option CalibRes :=
  calibLoop c meas ⟨lag, entry, lagStep, entryStep, none, 0⟩ none 100

end Calibration

/-- The merge eligibility condition as the SPEC words it (for comparison
with the code's `mergeStage`): the right lane must be unoccupied across
the forward window from the vehicle's current position up to its current
speed; nothing is said about cells behind the vehicle. -/
def mergeWindowSpec (road : List (List Int)) (roadLen lane pos v : Nat) :
    Bool :=
  allEmpty road (lane + 1) pos (min (pos + v) (roadLen - 1))

/-!
Concrete engine runs used by the counterexample and witness theorems.
Every state below is reached from a constructor call through the public
interface only (`step`, `set_parameters`, `reset_stats`, `close_lane`),
with explicitly chosen random draws and lane permutations.
-/

namespace Traces

open NagelSchreckenbergMultiple Calibration

/-- One step from a fresh 1-lane engine with dawdle probability 0: car 0
enters and sits at cell (0,0) with speed 5. -/
def e1c1 : NagelSchreckenbergMultiple := step (init 10 1 5 0 1 true) [0] [0]

/-- `set_parameters` call that claims to raise the dawdle probability
to 1 (certain slowdown) — but only the unused `lag_parameter` attribute
changes. -/
def e2c1 : NagelSchreckenbergMultiple := set_parameters e1c1 1 1

/-- The step after the parameter change: the car's dawdle draw is 1/2,
below the claimed new probability 1, yet no slowdown happens because
`step` still reads the old attribute `p = 0`. -/
def e3c1 : NagelSchreckenbergMultiple := step e2c1 [1/2, 3/10] [0]

/-- 3-lane engine; car 0 is admitted to lane 2. -/
def e1c2 : NagelSchreckenbergMultiple :=
  step (init 10 3 5 (1/2) 1 true) [0] [2, 0, 1]

/-- Car 0 dawdles to cell (2,4); fresh cars 1 and 2 are admitted to
lanes 0 and 2. -/
def e2c2 : NagelSchreckenbergMultiple :=
  step (set_parameters e1c2 (1/2) 2) [0, 0, 0] [0, 2, 1]

/-- The collision step: car 1 merges right from lane 0 into cell (1,5)
and car 2 overtakes left from lane 2 into the same cell (1,5); car 2 is
processed later and silently overwrites car 1. -/
def e3c2 : NagelSchreckenbergMultiple :=
  step (set_parameters e2c2 (1/2) 0) [9/10, 9/10, 9/10] []

/-- One more step: the remaining cars exit and car 1 is gone from the
road, the velocity map and the ledger. -/
def e4c2 : NagelSchreckenbergMultiple :=
  step (set_parameters e3c2 (1/2) 0) [9/10, 9/10] []

/-- Single-lane engine after two steps: car 0 entered at step 0 and is at
cell (0,5) with the clock at 2. -/
def e2c3 : NagelSchreckenbergMultiple :=
  step (set_parameters (step (init 10 1 5 0 1 false) [0] [0]) 0 0) [1/2] []

/-- After `reset_stats` at step 2, one more step lets car 0 exit: the
ledger receives the car even though it entered at step 0, before the
reset. -/
def e3c3 : NagelSchreckenbergMultiple :=
  step (set_parameters (reset_stats e2c3) 0 0) [1/2] []

/-- 2-lane engine; car 0 is admitted to lane 1. -/
def e1c7 : NagelSchreckenbergMultiple :=
  step (init 10 2 5 (1/2) 1 true) [0] [1, 0]

/-- Car 0 advances to (1,5); car 1 is admitted to lane 0. -/
def e2c7 : NagelSchreckenbergMultiple :=
  step (set_parameters e1c7 (1/2) 1) [9/10, 0] [0, 1]

/-- Car 1 cannot merge (car 0 occupies (1,5), inside its scan window) and
dawdles to (0,4); car 0 exits; car 2 is admitted to lane 1 at (1,0),
BEHIND car 1. -/
def e3c7 : NagelSchreckenbergMultiple :=
  step (set_parameters e2c7 (1/2) 1) [0, 9/10, 0] [1, 0]

/-- The step refuting the claim: car 1 at (0,4) has the whole forward
window of lane 1 free, yet does not merge because car 2 sits behind it at
(1,0), inside the code's backward scan; car 1 ends at (0,9), not in
lane 1. -/
def e4c7 : NagelSchreckenbergMultiple :=
  step (set_parameters e3c7 (1/2) 0) [9/10, 9/10] []

/-- Calibration configuration for the step-size counterexample: target 0,
tolerance 1, both parameter ranges [-100, 1] (accepted unvalidated). -/
def c9cfg : Calibration := ⟨0, 1, -100, 1, -100, 1⟩

/-- Measured averaged travel times: improving up to iteration 99, then a
sharp worsening at iteration 100. -/
def meas9 : Nat → ℚ := fun n => if n < 100 then (200 - (n : ℚ)) else 500

/-- The full 100-iteration calibration run driven by `meas9`. -/
def run9 : Option Calibration.CalibRes :=
  Calibration.calibrate c9cfg meas9 (1/2) (1/2) (1/100) (1/100)

/-- Slice of the loop-state table of `run9` (split to keep elaboration cheap). -/
def c9statesA : List Calibration.IterState :=
  [⟨(1/2 : ℚ), (1/2 : ℚ), (1/100 : ℚ), (1/100 : ℚ), none, 0⟩,
   ⟨(49/100 : ℚ), (49/100 : ℚ), (101/100 : ℚ), (101/100 : ℚ), some (199 : ℚ), 1⟩,
   ⟨(-13/25 : ℚ), (-13/25 : ℚ), (101/100 : ℚ), (101/100 : ℚ), some (198 : ℚ), 2⟩,
   ⟨(-153/100 : ℚ), (-153/100 : ℚ), (101/100 : ℚ), (101/100 : ℚ), some (197 : ℚ), 3⟩,
   ⟨(-127/50 : ℚ), (-127/50 : ℚ), (101/100 : ℚ), (101/100 : ℚ), some (196 : ℚ), 4⟩,
   ⟨(-71/20 : ℚ), (-71/20 : ℚ), (101/100 : ℚ), (101/100 : ℚ), some (195 : ℚ), 5⟩,
   ⟨(-114/25 : ℚ), (-114/25 : ℚ), (101/100 : ℚ), (101/100 : ℚ), some (194 : ℚ), 6⟩,
   ⟨(-557/100 : ℚ), (-557/100 : ℚ), (101/100 : ℚ), (101/100 : ℚ), some (193 : ℚ), 7⟩,
   ⟨(-329/50 : ℚ), (-329/50 : ℚ), (101/100 : ℚ), (101/100 : ℚ), some (192 : ℚ), 8⟩,
   ⟨(-759/100 : ℚ), (-759/100 : ℚ), (101/100 : ℚ), (101/100 : ℚ), some (191 : ℚ), 9⟩,
   ⟨(-43/5 : ℚ), (-43/5 : ℚ), (101/100 : ℚ), (101/100 : ℚ), some (190 : ℚ), 10⟩,
   ⟨(-961/100 : ℚ), (-961/100 : ℚ), (101/100 : ℚ), (101/100 : ℚ), some (189 : ℚ), 11⟩,
   ⟨(-531/50 : ℚ), (-531/50 : ℚ), (101/100 : ℚ), (101/100 : ℚ), some (188 : ℚ), 12⟩,
   ⟨(-1163/100 : ℚ), (-1163/100 : ℚ), (101/100 : ℚ), (101/100 : ℚ), some (187 : ℚ), 13⟩,
   ⟨(-316/25 : ℚ), (-316/25 : ℚ), (101/100 : ℚ), (101/100 : ℚ), some (186 : ℚ), 14⟩,
   ⟨(-273/20 : ℚ), (-273/20 : ℚ), (101/100 : ℚ), (101/100 : ℚ), some (185 : ℚ), 15⟩,
   ⟨(-733/50 : ℚ), (-733/50 : ℚ), (101/100 : ℚ), (101/100 : ℚ), some (184 : ℚ), 16⟩,
   ⟨(-1567/100 : ℚ), (-1567/100 : ℚ), (101/100 : ℚ), (101/100 : ℚ), some (183 : ℚ), 17⟩,
   ⟨(-417/25 : ℚ), (-417/25 : ℚ), (101/100 : ℚ), (101/100 : ℚ), some (182 : ℚ), 18⟩,
   ⟨(-1769/100 : ℚ), (-1769/100 : ℚ), (101/100 : ℚ), (101/100 : ℚ), some (181 : ℚ), 19⟩,
   ⟨(-187/10 : ℚ), (-187/10 : ℚ), (101/100 : ℚ), (101/100 : ℚ), some (180 : ℚ), 20⟩,
   ⟨(-1971/100 : ℚ), (-1971/100 : ℚ), (101/100 : ℚ), (101/100 : ℚ), some (179 : ℚ), 21⟩,
   ⟨(-518/25 : ℚ), (-518/25 : ℚ), (101/100 : ℚ), (101/100 : ℚ), some (178 : ℚ), 22⟩,
   ⟨(-2173/100 : ℚ), (-2173/100 : ℚ), (101/100 : ℚ), (101/100 : ℚ), some (177 : ℚ), 23⟩,
   ⟨(-1137/50 : ℚ), (-1137/50 : ℚ), (101/100 : ℚ), (101/100 : ℚ), some (176 : ℚ), 24⟩,
   ⟨(-95/4 : ℚ), (-95/4 : ℚ), (101/100 : ℚ), (101/100 : ℚ), some (175 : ℚ), 25⟩]

/-- Slice of the loop-state table of `run9` (split to keep elaboration cheap). -/
def c9statesB : List Calibration.IterState :=
  [⟨(-619/25 : ℚ), (-619/25 : ℚ), (101/100 : ℚ), (101/100 : ℚ), some (174 : ℚ), 26⟩,
   ⟨(-2577/100 : ℚ), (-2577/100 : ℚ), (101/100 : ℚ), (101/100 : ℚ), some (173 : ℚ), 27⟩,
   ⟨(-1339/50 : ℚ), (-1339/50 : ℚ), (101/100 : ℚ), (101/100 : ℚ), some (172 : ℚ), 28⟩,
   ⟨(-2779/100 : ℚ), (-2779/100 : ℚ), (101/100 : ℚ), (101/100 : ℚ), some (171 : ℚ), 29⟩,
   ⟨(-144/5 : ℚ), (-144/5 : ℚ), (101/100 : ℚ), (101/100 : ℚ), some (170 : ℚ), 30⟩,
   ⟨(-2981/100 : ℚ), (-2981/100 : ℚ), (101/100 : ℚ), (101/100 : ℚ), some (169 : ℚ), 31⟩,
   ⟨(-1541/50 : ℚ), (-1541/50 : ℚ), (101/100 : ℚ), (101/100 : ℚ), some (168 : ℚ), 32⟩,
   ⟨(-3183/100 : ℚ), (-3183/100 : ℚ), (101/100 : ℚ), (101/100 : ℚ), some (167 : ℚ), 33⟩,
   ⟨(-821/25 : ℚ), (-821/25 : ℚ), (101/100 : ℚ), (101/100 : ℚ), some (166 : ℚ), 34⟩,
   ⟨(-677/20 : ℚ), (-677/20 : ℚ), (101/100 : ℚ), (101/100 : ℚ), some (165 : ℚ), 35⟩,
   ⟨(-1743/50 : ℚ), (-1743/50 : ℚ), (101/100 : ℚ), (101/100 : ℚ), some (164 : ℚ), 36⟩,
   ⟨(-3587/100 : ℚ), (-3587/100 : ℚ), (101/100 : ℚ), (101/100 : ℚ), some (163 : ℚ), 37⟩,
   ⟨(-922/25 : ℚ), (-922/25 : ℚ), (101/100 : ℚ), (101/100 : ℚ), some (162 : ℚ), 38⟩,
   ⟨(-3789/100 : ℚ), (-3789/100 : ℚ), (101/100 : ℚ), (101/100 : ℚ), some (161 : ℚ), 39⟩,
   ⟨(-389/10 : ℚ), (-389/10 : ℚ), (101/100 : ℚ), (101/100 : ℚ), some (160 : ℚ), 40⟩,
   ⟨(-3991/100 : ℚ), (-3991/100 : ℚ), (101/100 : ℚ), (101/100 : ℚ), some (159 : ℚ), 41⟩,
   ⟨(-1023/25 : ℚ), (-1023/25 : ℚ), (101/100 : ℚ), (101/100 : ℚ), some (158 : ℚ), 42⟩,
   ⟨(-4193/100 : ℚ), (-4193/100 : ℚ), (101/100 : ℚ), (101/100 : ℚ), some (157 : ℚ), 43⟩,
   ⟨(-2147/50 : ℚ), (-2147/50 : ℚ), (101/100 : ℚ), (101/100 : ℚ), some (156 : ℚ), 44⟩,
   ⟨(-879/20 : ℚ), (-879/20 : ℚ), (101/100 : ℚ), (101/100 : ℚ), some (155 : ℚ), 45⟩,
   ⟨(-1124/25 : ℚ), (-1124/25 : ℚ), (101/100 : ℚ), (101/100 : ℚ), some (154 : ℚ), 46⟩,
   ⟨(-4597/100 : ℚ), (-4597/100 : ℚ), (101/100 : ℚ), (101/100 : ℚ), some (153 : ℚ), 47⟩,
   ⟨(-2349/50 : ℚ), (-2349/50 : ℚ), (101/100 : ℚ), (101/100 : ℚ), some (152 : ℚ), 48⟩,
   ⟨(-4799/100 : ℚ), (-4799/100 : ℚ), (101/100 : ℚ), (101/100 : ℚ), some (151 : ℚ), 49⟩,
   ⟨(-49 : ℚ), (-49 : ℚ), (101/100 : ℚ), (101/100 : ℚ), some (150 : ℚ), 50⟩]

/-- Slice of the loop-state table of `run9` (split to keep elaboration cheap). -/
def c9statesC : List Calibration.IterState :=
  [⟨(-5001/100 : ℚ), (-5001/100 : ℚ), (101/100 : ℚ), (101/100 : ℚ), some (149 : ℚ), 51⟩,
   ⟨(-2551/50 : ℚ), (-2551/50 : ℚ), (101/100 : ℚ), (101/100 : ℚ), some (148 : ℚ), 52⟩,
   ⟨(-5203/100 : ℚ), (-5203/100 : ℚ), (101/100 : ℚ), (101/100 : ℚ), some (147 : ℚ), 53⟩,
   ⟨(-1326/25 : ℚ), (-1326/25 : ℚ), (101/100 : ℚ), (101/100 : ℚ), some (146 : ℚ), 54⟩,
   ⟨(-1081/20 : ℚ), (-1081/20 : ℚ), (101/100 : ℚ), (101/100 : ℚ), some (145 : ℚ), 55⟩,
   ⟨(-2753/50 : ℚ), (-2753/50 : ℚ), (101/100 : ℚ), (101/100 : ℚ), some (144 : ℚ), 56⟩,
   ⟨(-5607/100 : ℚ), (-5607/100 : ℚ), (101/100 : ℚ), (101/100 : ℚ), some (143 : ℚ), 57⟩,
   ⟨(-1427/25 : ℚ), (-1427/25 : ℚ), (101/100 : ℚ), (101/100 : ℚ), some (142 : ℚ), 58⟩,
   ⟨(-5809/100 : ℚ), (-5809/100 : ℚ), (101/100 : ℚ), (101/100 : ℚ), some (141 : ℚ), 59⟩,
   ⟨(-591/10 : ℚ), (-591/10 : ℚ), (101/100 : ℚ), (101/100 : ℚ), some (140 : ℚ), 60⟩,
   ⟨(-6011/100 : ℚ), (-6011/100 : ℚ), (101/100 : ℚ), (101/100 : ℚ), some (139 : ℚ), 61⟩,
   ⟨(-1528/25 : ℚ), (-1528/25 : ℚ), (101/100 : ℚ), (101/100 : ℚ), some (138 : ℚ), 62⟩,
   ⟨(-6213/100 : ℚ), (-6213/100 : ℚ), (101/100 : ℚ), (101/100 : ℚ), some (137 : ℚ), 63⟩,
   ⟨(-3157/50 : ℚ), (-3157/50 : ℚ), (101/100 : ℚ), (101/100 : ℚ), some (136 : ℚ), 64⟩,
   ⟨(-1283/20 : ℚ), (-1283/20 : ℚ), (101/100 : ℚ), (101/100 : ℚ), some (135 : ℚ), 65⟩,
   ⟨(-1629/25 : ℚ), (-1629/25 : ℚ), (101/100 : ℚ), (101/100 : ℚ), some (134 : ℚ), 66⟩,
   ⟨(-6617/100 : ℚ), (-6617/100 : ℚ), (101/100 : ℚ), (101/100 : ℚ), some (133 : ℚ), 67⟩,
   ⟨(-3359/50 : ℚ), (-3359/50 : ℚ), (101/100 : ℚ), (101/100 : ℚ), some (132 : ℚ), 68⟩,
   ⟨(-6819/100 : ℚ), (-6819/100 : ℚ), (101/100 : ℚ), (101/100 : ℚ), some (131 : ℚ), 69⟩,
   ⟨(-346/5 : ℚ), (-346/5 : ℚ), (101/100 : ℚ), (101/100 : ℚ), some (130 : ℚ), 70⟩,
   ⟨(-7021/100 : ℚ), (-7021/100 : ℚ), (101/100 : ℚ), (101/100 : ℚ), some (129 : ℚ), 71⟩,
   ⟨(-3561/50 : ℚ), (-3561/50 : ℚ), (101/100 : ℚ), (101/100 : ℚ), some (128 : ℚ), 72⟩,
   ⟨(-7223/100 : ℚ), (-7223/100 : ℚ), (101/100 : ℚ), (101/100 : ℚ), some (127 : ℚ), 73⟩,
   ⟨(-1831/25 : ℚ), (-1831/25 : ℚ), (101/100 : ℚ), (101/100 : ℚ), some (126 : ℚ), 74⟩,
   ⟨(-297/4 : ℚ), (-297/4 : ℚ), (101/100 : ℚ), (101/100 : ℚ), some (125 : ℚ), 75⟩]

/-- Slice of the loop-state table of `run9` (split to keep elaboration cheap). -/
def c9statesD : List Calibration.IterState :=
  [⟨(-3763/50 : ℚ), (-3763/50 : ℚ), (101/100 : ℚ), (101/100 : ℚ), some (124 : ℚ), 76⟩,
   ⟨(-7627/100 : ℚ), (-7627/100 : ℚ), (101/100 : ℚ), (101/100 : ℚ), some (123 : ℚ), 77⟩,
   ⟨(-1932/25 : ℚ), (-1932/25 : ℚ), (101/100 : ℚ), (101/100 : ℚ), some (122 : ℚ), 78⟩,
   ⟨(-7829/100 : ℚ), (-7829/100 : ℚ), (101/100 : ℚ), (101/100 : ℚ), some (121 : ℚ), 79⟩,
   ⟨(-793/10 : ℚ), (-793/10 : ℚ), (101/100 : ℚ), (101/100 : ℚ), some (120 : ℚ), 80⟩,
   ⟨(-8031/100 : ℚ), (-8031/100 : ℚ), (101/100 : ℚ), (101/100 : ℚ), some (119 : ℚ), 81⟩,
   ⟨(-2033/25 : ℚ), (-2033/25 : ℚ), (101/100 : ℚ), (101/100 : ℚ), some (118 : ℚ), 82⟩,
   ⟨(-8233/100 : ℚ), (-8233/100 : ℚ), (101/100 : ℚ), (101/100 : ℚ), some (117 : ℚ), 83⟩,
   ⟨(-4167/50 : ℚ), (-4167/50 : ℚ), (101/100 : ℚ), (101/100 : ℚ), some (116 : ℚ), 84⟩,
   ⟨(-1687/20 : ℚ), (-1687/20 : ℚ), (101/100 : ℚ), (101/100 : ℚ), some (115 : ℚ), 85⟩,
   ⟨(-2134/25 : ℚ), (-2134/25 : ℚ), (101/100 : ℚ), (101/100 : ℚ), some (114 : ℚ), 86⟩,
   ⟨(-8637/100 : ℚ), (-8637/100 : ℚ), (101/100 : ℚ), (101/100 : ℚ), some (113 : ℚ), 87⟩,
   ⟨(-4369/50 : ℚ), (-4369/50 : ℚ), (101/100 : ℚ), (101/100 : ℚ), some (112 : ℚ), 88⟩,
   ⟨(-8839/100 : ℚ), (-8839/100 : ℚ), (101/100 : ℚ), (101/100 : ℚ), some (111 : ℚ), 89⟩,
   ⟨(-447/5 : ℚ), (-447/5 : ℚ), (101/100 : ℚ), (101/100 : ℚ), some (110 : ℚ), 90⟩,
   ⟨(-9041/100 : ℚ), (-9041/100 : ℚ), (101/100 : ℚ), (101/100 : ℚ), some (109 : ℚ), 91⟩,
   ⟨(-4571/50 : ℚ), (-4571/50 : ℚ), (101/100 : ℚ), (101/100 : ℚ), some (108 : ℚ), 92⟩,
   ⟨(-9243/100 : ℚ), (-9243/100 : ℚ), (101/100 : ℚ), (101/100 : ℚ), some (107 : ℚ), 93⟩,
   ⟨(-2336/25 : ℚ), (-2336/25 : ℚ), (101/100 : ℚ), (101/100 : ℚ), some (106 : ℚ), 94⟩,
   ⟨(-1889/20 : ℚ), (-1889/20 : ℚ), (101/100 : ℚ), (101/100 : ℚ), some (105 : ℚ), 95⟩,
   ⟨(-4773/50 : ℚ), (-4773/50 : ℚ), (101/100 : ℚ), (101/100 : ℚ), some (104 : ℚ), 96⟩,
   ⟨(-9647/100 : ℚ), (-9647/100 : ℚ), (101/100 : ℚ), (101/100 : ℚ), some (103 : ℚ), 97⟩,
   ⟨(-2437/25 : ℚ), (-2437/25 : ℚ), (101/100 : ℚ), (101/100 : ℚ), some (102 : ℚ), 98⟩,
   ⟨(-9849/100 : ℚ), (-9849/100 : ℚ), (101/100 : ℚ), (101/100 : ℚ), some (101 : ℚ), 99⟩,
   ⟨(-199/2 : ℚ), (-199/2 : ℚ), (101/100 : ℚ), (101/100 : ℚ), some (500 : ℚ), 100⟩]

/-- The 101 loop states of the run `run9`: entry `k` is the state before
iteration `k + 1` (proved in the C9 counterexample theorem). -/
def c9states : List Calibration.IterState :=
  c9statesA ++ c9statesB ++ c9statesC ++ c9statesD

/-- Slice of the per-iteration result table of `run9`. -/
def c9ressA : List Calibration.CalibRes :=
  [⟨1, (1/2 : ℚ), (1/2 : ℚ), (199 : ℚ), (199 : ℚ), false⟩,
   ⟨2, (49/100 : ℚ), (49/100 : ℚ), (198 : ℚ), (198 : ℚ), false⟩,
   ⟨3, (-13/25 : ℚ), (-13/25 : ℚ), (197 : ℚ), (197 : ℚ), false⟩,
   ⟨4, (-153/100 : ℚ), (-153/100 : ℚ), (196 : ℚ), (196 : ℚ), false⟩,
   ⟨5, (-127/50 : ℚ), (-127/50 : ℚ), (195 : ℚ), (195 : ℚ), false⟩,
   ⟨6, (-71/20 : ℚ), (-71/20 : ℚ), (194 : ℚ), (194 : ℚ), false⟩,
   ⟨7, (-114/25 : ℚ), (-114/25 : ℚ), (193 : ℚ), (193 : ℚ), false⟩,
   ⟨8, (-557/100 : ℚ), (-557/100 : ℚ), (192 : ℚ), (192 : ℚ), false⟩,
   ⟨9, (-329/50 : ℚ), (-329/50 : ℚ), (191 : ℚ), (191 : ℚ), false⟩,
   ⟨10, (-759/100 : ℚ), (-759/100 : ℚ), (190 : ℚ), (190 : ℚ), false⟩,
   ⟨11, (-43/5 : ℚ), (-43/5 : ℚ), (189 : ℚ), (189 : ℚ), false⟩,
   ⟨12, (-961/100 : ℚ), (-961/100 : ℚ), (188 : ℚ), (188 : ℚ), false⟩,
   ⟨13, (-531/50 : ℚ), (-531/50 : ℚ), (187 : ℚ), (187 : ℚ), false⟩,
   ⟨14, (-1163/100 : ℚ), (-1163/100 : ℚ), (186 : ℚ), (186 : ℚ), false⟩,
   ⟨15, (-316/25 : ℚ), (-316/25 : ℚ), (185 : ℚ), (185 : ℚ), false⟩,
   ⟨16, (-273/20 : ℚ), (-273/20 : ℚ), (184 : ℚ), (184 : ℚ), false⟩,
   ⟨17, (-733/50 : ℚ), (-733/50 : ℚ), (183 : ℚ), (183 : ℚ), false⟩,
   ⟨18, (-1567/100 : ℚ), (-1567/100 : ℚ), (182 : ℚ), (182 : ℚ), false⟩,
   ⟨19, (-417/25 : ℚ), (-417/25 : ℚ), (181 : ℚ), (181 : ℚ), false⟩,
   ⟨20, (-1769/100 : ℚ), (-1769/100 : ℚ), (180 : ℚ), (180 : ℚ), false⟩,
   ⟨21, (-187/10 : ℚ), (-187/10 : ℚ), (179 : ℚ), (179 : ℚ), false⟩,
   ⟨22, (-1971/100 : ℚ), (-1971/100 : ℚ), (178 : ℚ), (178 : ℚ), false⟩,
   ⟨23, (-518/25 : ℚ), (-518/25 : ℚ), (177 : ℚ), (177 : ℚ), false⟩,
   ⟨24, (-2173/100 : ℚ), (-2173/100 : ℚ), (176 : ℚ), (176 : ℚ), false⟩,
   ⟨25, (-1137/50 : ℚ), (-1137/50 : ℚ), (175 : ℚ), (175 : ℚ), false⟩]

/-- Slice of the per-iteration result table of `run9`. -/
def c9ressB : List Calibration.CalibRes :=
  [⟨26, (-95/4 : ℚ), (-95/4 : ℚ), (174 : ℚ), (174 : ℚ), false⟩,
   ⟨27, (-619/25 : ℚ), (-619/25 : ℚ), (173 : ℚ), (173 : ℚ), false⟩,
   ⟨28, (-2577/100 : ℚ), (-2577/100 : ℚ), (172 : ℚ), (172 : ℚ), false⟩,
   ⟨29, (-1339/50 : ℚ), (-1339/50 : ℚ), (171 : ℚ), (171 : ℚ), false⟩,
   ⟨30, (-2779/100 : ℚ), (-2779/100 : ℚ), (170 : ℚ), (170 : ℚ), false⟩,
   ⟨31, (-144/5 : ℚ), (-144/5 : ℚ), (169 : ℚ), (169 : ℚ), false⟩,
   ⟨32, (-2981/100 : ℚ), (-2981/100 : ℚ), (168 : ℚ), (168 : ℚ), false⟩,
   ⟨33, (-1541/50 : ℚ), (-1541/50 : ℚ), (167 : ℚ), (167 : ℚ), false⟩,
   ⟨34, (-3183/100 : ℚ), (-3183/100 : ℚ), (166 : ℚ), (166 : ℚ), false⟩,
   ⟨35, (-821/25 : ℚ), (-821/25 : ℚ), (165 : ℚ), (165 : ℚ), false⟩,
   ⟨36, (-677/20 : ℚ), (-677/20 : ℚ), (164 : ℚ), (164 : ℚ), false⟩,
   ⟨37, (-1743/50 : ℚ), (-1743/50 : ℚ), (163 : ℚ), (163 : ℚ), false⟩,
   ⟨38, (-3587/100 : ℚ), (-3587/100 : ℚ), (162 : ℚ), (162 : ℚ), false⟩,
   ⟨39, (-922/25 : ℚ), (-922/25 : ℚ), (161 : ℚ), (161 : ℚ), false⟩,
   ⟨40, (-3789/100 : ℚ), (-3789/100 : ℚ), (160 : ℚ), (160 : ℚ), false⟩,
   ⟨41, (-389/10 : ℚ), (-389/10 : ℚ), (159 : ℚ), (159 : ℚ), false⟩,
   ⟨42, (-3991/100 : ℚ), (-3991/100 : ℚ), (158 : ℚ), (158 : ℚ), false⟩,
   ⟨43, (-1023/25 : ℚ), (-1023/25 : ℚ), (157 : ℚ), (157 : ℚ), false⟩,
   ⟨44, (-4193/100 : ℚ), (-4193/100 : ℚ), (156 : ℚ), (156 : ℚ), false⟩,
   ⟨45, (-2147/50 : ℚ), (-2147/50 : ℚ), (155 : ℚ), (155 : ℚ), false⟩,
   ⟨46, (-879/20 : ℚ), (-879/20 : ℚ), (154 : ℚ), (154 : ℚ), false⟩,
   ⟨47, (-1124/25 : ℚ), (-1124/25 : ℚ), (153 : ℚ), (153 : ℚ), false⟩,
   ⟨48, (-4597/100 : ℚ), (-4597/100 : ℚ), (152 : ℚ), (152 : ℚ), false⟩,
   ⟨49, (-2349/50 : ℚ), (-2349/50 : ℚ), (151 : ℚ), (151 : ℚ), false⟩,
   ⟨50, (-4799/100 : ℚ), (-4799/100 : ℚ), (150 : ℚ), (150 : ℚ), false⟩]

/-- Slice of the per-iteration result table of `run9`. -/
def c9ressC : List Calibration.CalibRes :=
  [⟨51, (-49 : ℚ), (-49 : ℚ), (149 : ℚ), (149 : ℚ), false⟩,
   ⟨52, (-5001/100 : ℚ), (-5001/100 : ℚ), (148 : ℚ), (148 : ℚ), false⟩,
   ⟨53, (-2551/50 : ℚ), (-2551/50 : ℚ), (147 : ℚ), (147 : ℚ), false⟩,
   ⟨54, (-5203/100 : ℚ), (-5203/100 : ℚ), (146 : ℚ), (146 : ℚ), false⟩,
   ⟨55, (-1326/25 : ℚ), (-1326/25 : ℚ), (145 : ℚ), (145 : ℚ), false⟩,
   ⟨56, (-1081/20 : ℚ), (-1081/20 : ℚ), (144 : ℚ), (144 : ℚ), false⟩,
   ⟨57, (-2753/50 : ℚ), (-2753/50 : ℚ), (143 : ℚ), (143 : ℚ), false⟩,
   ⟨58, (-5607/100 : ℚ), (-5607/100 : ℚ), (142 : ℚ), (142 : ℚ), false⟩,
   ⟨59, (-1427/25 : ℚ), (-1427/25 : ℚ), (141 : ℚ), (141 : ℚ), false⟩,
   ⟨60, (-5809/100 : ℚ), (-5809/100 : ℚ), (140 : ℚ), (140 : ℚ), false⟩,
   ⟨61, (-591/10 : ℚ), (-591/10 : ℚ), (139 : ℚ), (139 : ℚ), false⟩,
   ⟨62, (-6011/100 : ℚ), (-6011/100 : ℚ), (138 : ℚ), (138 : ℚ), false⟩,
   ⟨63, (-1528/25 : ℚ), (-1528/25 : ℚ), (137 : ℚ), (137 : ℚ), false⟩,
   ⟨64, (-6213/100 : ℚ), (-6213/100 : ℚ), (136 : ℚ), (136 : ℚ), false⟩,
   ⟨65, (-3157/50 : ℚ), (-3157/50 : ℚ), (135 : ℚ), (135 : ℚ), false⟩,
   ⟨66, (-1283/20 : ℚ), (-1283/20 : ℚ), (134 : ℚ), (134 : ℚ), false⟩,
   ⟨67, (-1629/25 : ℚ), (-1629/25 : ℚ), (133 : ℚ), (133 : ℚ), false⟩,
   ⟨68, (-6617/100 : ℚ), (-6617/100 : ℚ), (132 : ℚ), (132 : ℚ), false⟩,
   ⟨69, (-3359/50 : ℚ), (-3359/50 : ℚ), (131 : ℚ), (131 : ℚ), false⟩,
   ⟨70, (-6819/100 : ℚ), (-6819/100 : ℚ), (130 : ℚ), (130 : ℚ), false⟩,
   ⟨71, (-346/5 : ℚ), (-346/5 : ℚ), (129 : ℚ), (129 : ℚ), false⟩,
   ⟨72, (-7021/100 : ℚ), (-7021/100 : ℚ), (128 : ℚ), (128 : ℚ), false⟩,
   ⟨73, (-3561/50 : ℚ), (-3561/50 : ℚ), (127 : ℚ), (127 : ℚ), false⟩,
   ⟨74, (-7223/100 : ℚ), (-7223/100 : ℚ), (126 : ℚ), (126 : ℚ), false⟩,
   ⟨75, (-1831/25 : ℚ), (-1831/25 : ℚ), (125 : ℚ), (125 : ℚ), false⟩]

/-- Slice of the per-iteration result table of `run9`. -/
def c9ressD : List Calibration.CalibRes :=
  [⟨76, (-297/4 : ℚ), (-297/4 : ℚ), (124 : ℚ), (124 : ℚ), false⟩,
   ⟨77, (-3763/50 : ℚ), (-3763/50 : ℚ), (123 : ℚ), (123 : ℚ), false⟩,
   ⟨78, (-7627/100 : ℚ), (-7627/100 : ℚ), (122 : ℚ), (122 : ℚ), false⟩,
   ⟨79, (-1932/25 : ℚ), (-1932/25 : ℚ), (121 : ℚ), (121 : ℚ), false⟩,
   ⟨80, (-7829/100 : ℚ), (-7829/100 : ℚ), (120 : ℚ), (120 : ℚ), false⟩,
   ⟨81, (-793/10 : ℚ), (-793/10 : ℚ), (119 : ℚ), (119 : ℚ), false⟩,
   ⟨82, (-8031/100 : ℚ), (-8031/100 : ℚ), (118 : ℚ), (118 : ℚ), false⟩,
   ⟨83, (-2033/25 : ℚ), (-2033/25 : ℚ), (117 : ℚ), (117 : ℚ), false⟩,
   ⟨84, (-8233/100 : ℚ), (-8233/100 : ℚ), (116 : ℚ), (116 : ℚ), false⟩,
   ⟨85, (-4167/50 : ℚ), (-4167/50 : ℚ), (115 : ℚ), (115 : ℚ), false⟩,
   ⟨86, (-1687/20 : ℚ), (-1687/20 : ℚ), (114 : ℚ), (114 : ℚ), false⟩,
   ⟨87, (-2134/25 : ℚ), (-2134/25 : ℚ), (113 : ℚ), (113 : ℚ), false⟩,
   ⟨88, (-8637/100 : ℚ), (-8637/100 : ℚ), (112 : ℚ), (112 : ℚ), false⟩,
   ⟨89, (-4369/50 : ℚ), (-4369/50 : ℚ), (111 : ℚ), (111 : ℚ), false⟩,
   ⟨90, (-8839/100 : ℚ), (-8839/100 : ℚ), (110 : ℚ), (110 : ℚ), false⟩,
   ⟨91, (-447/5 : ℚ), (-447/5 : ℚ), (109 : ℚ), (109 : ℚ), false⟩,
   ⟨92, (-9041/100 : ℚ), (-9041/100 : ℚ), (108 : ℚ), (108 : ℚ), false⟩,
   ⟨93, (-4571/50 : ℚ), (-4571/50 : ℚ), (107 : ℚ), (107 : ℚ), false⟩,
   ⟨94, (-9243/100 : ℚ), (-9243/100 : ℚ), (106 : ℚ), (106 : ℚ), false⟩,
   ⟨95, (-2336/25 : ℚ), (-2336/25 : ℚ), (105 : ℚ), (105 : ℚ), false⟩,
   ⟨96, (-1889/20 : ℚ), (-1889/20 : ℚ), (104 : ℚ), (104 : ℚ), false⟩,
   ⟨97, (-4773/50 : ℚ), (-4773/50 : ℚ), (103 : ℚ), (103 : ℚ), false⟩,
   ⟨98, (-9647/100 : ℚ), (-9647/100 : ℚ), (102 : ℚ), (102 : ℚ), false⟩,
   ⟨99, (-2437/25 : ℚ), (-2437/25 : ℚ), (101 : ℚ), (101 : ℚ), false⟩,
   ⟨100, (-9849/100 : ℚ), (-9849/100 : ℚ), (500 : ℚ), (500 : ℚ), false⟩]

/-- The result surface recorded by each iteration of `run9`: entry `k`
is the result of iteration `k + 1`. -/
def c9ress : List Calibration.CalibRes :=
  c9ressA ++ c9ressB ++ c9ressC ++ c9ressD

end Traces

/-!
Theorems.  Each claim of the specification review is settled by exactly
one theorem below (plus a witness where the theorem carries hypotheses).
-/

section ClaimTheorems

open NagelSchreckenbergMultiple Calibration

set_option allowUnsafeReducibility true

attribute [local semireducible] Rat.add Rat.mul Rat.inv Rat.sub Rat.ofScientific

/-- C1: the claim says `set_parameters(dawdle_probability, entry_rate)`
mutates both tunable parameters and every subsequent `step()` uses the new
dawdle probability in its random-slowdown rule.  The code violates this:
`set_parameters` writes the attribute `lag_parameter`, while `step` reads
the attribute `p` set only by the constructor, so the dawdle probability
never changes.  Failing input: the engine `Traces.e1c1` (dawdle
probability 0, one car at speed 5) after `set_parameters 1 1`; the next
step draws 1/2 for the slowdown rule, which is below the claimed new
probability 1, yet the car keeps speed 5. -/
theorem c1_set_parameters_dawdle_never_applied :
    (∀ (e : NagelSchreckenbergMultiple) (lag entry : ℚ),
      (set_parameters e lag entry).p = e.p) ∧
    Traces.e2c1.p = 0 ∧
    Traces.e2c1.lag_parameter = some 1 ∧
    lookupNat Traces.e3c1.velocities 0 = some 5 :=
  ⟨fun _ _ _ => rfl, by decide, by decide, by decide⟩

/-- C2: in the reachable 3-lane state `Traces.e2c2`, car 1 (lane 0,
cell 0) merges right into cell (1,5) while car 2 (lane 2, cell 0, blocked
by car 0 at (2,4)) overtakes left into the same cell (1,5); both plans are
computed against the previous road, so neither sees the other.  Car 2 is
processed second and overwrites car 1, which disappears from the road
grid, then from the velocity map, without ever exiting or being recorded
in the travel-time ledger. -/
theorem c2_merge_overtake_collision_loses_vehicle :
    -- the reachable pre-collision state: car 1 in lane 0, car 2 in lane 2,
    -- car 0 blocking lane 2 at cell 4
    cellAt Traces.e2c2.road 0 0 = 1 ∧
    cellAt Traces.e2c2.road 2 0 = 2 ∧
    cellAt Traces.e2c2.road 2 4 = 0 ∧
    -- both cars target cell (1,5): car 1 by merging right at speed 5,
    -- car 2 by overtaking left at speed 5
    planCar Traces.e2c2.road 10 3 5 true 0 0 5 = (5, 1) ∧
    planCar Traces.e2c2.road 10 3 5 true 2 0 5 = (5, 1) ∧
    -- after the step, cell (1,5) holds car 2 and car 1 is gone from the grid
    cellAt Traces.e3c2.road 1 5 = 2 ∧
    (Traces.e3c2.road.all fun row => row.all fun c => c ≠ 1) ∧
    -- one step later car 1 has also left the velocity map, and it was
    -- never recorded in the travel-time ledger
    (Traces.e4c2.road.all fun row => row.all fun c => c ≠ 1) ∧
    (Traces.e4c2.velocities.all fun kv => kv.1 ≠ 1) ∧
    lookupNat Traces.e3c2.times_taken 1 = none ∧
    lookupNat Traces.e4c2.times_taken 1 = none := by
  decide

/-- C3 counterexample: `reset_stats` is called on `Traces.e2c3` at step
T = 2 while car 0 (which entered at step 0) is still on the road; the next
step records car 0 in the ledger.  The ledger therefore contains a vehicle
that did NOT enter at a step >= T, refuting "every entry subsequently
present in the travel-time ledger belongs to a vehicle that both entered
and exited the road at steps >= T". -/
theorem c3_counterexample_entry_before_reset :
    Traces.e2c3.current_step = 2 ∧
    (reset_stats Traces.e2c3).times_taken = [] ∧
    (reset_stats Traces.e2c3).road = Traces.e2c3.road ∧
    Traces.e3c3.times_taken = [(0, 2)] ∧
    lookupNat Traces.e3c3.start_times 0 = some 0 := by
  decide

/-- C6 counterexample: constructing an engine with road length 0, lane
count 0, dawdle probability 2 and entry rate -1 (all outside the
documented ranges) raises no configuration error: the constructor is total
and stores every invalid value unchanged, so nothing fails fast and
nothing is clamped. -/
theorem c6_counterexample_no_validation :
    (init 0 0 5 2 (-1) true).road_length = 0 ∧
    (init 0 0 5 2 (-1) true).lanes = 0 ∧
    (init 0 0 5 2 (-1) true).p = 2 ∧
    (init 0 0 5 2 (-1) true).entry_rate = -1 := by
  decide

/-- C6 amended: engine construction performs no validation at all — every
argument, including structurally invalid ones (zero road length, zero
lanes, out-of-range probabilities and rates), is accepted and stored
unchanged; construction never fails and never clamps. -/
theorem c6_amended_constructor_stores_arguments_unchanged
    (road_length lanes v_max : Nat) (lag rate : ℚ) (multi : Bool) :
    (init road_length lanes v_max lag rate multi).road_length = road_length ∧
    (init road_length lanes v_max lag rate multi).lanes = lanes ∧
    (init road_length lanes v_max lag rate multi).v_max = v_max ∧
    (init road_length lanes v_max lag rate multi).p = lag ∧
    (init road_length lanes v_max lag rate multi).entry_rate = rate ∧
    (init road_length lanes v_max lag rate multi).multi_lane_rules = multi :=
  ⟨rfl, rfl, rfl, rfl, rfl, rfl⟩

/-- C7 counterexample: in the reachable state `Traces.e3c7`, car 1 at cell
(0,4) with gap-limited speed 5 did not switch left, has a right lane, and
the spec's forward window (cells (1,4)..(1,9)) is entirely free — yet the
car does not merge, because the code also scans up to `v_max` cells
BEHIND the car and car 2 sits at (1,0).  After the step car 1 is at (0,9),
still in lane 0. -/
theorem c7_counterexample_forward_window_clear_but_no_merge :
    -- spec-side merge condition holds for car 1 at (0,4) with speed 5
    mergeWindowSpec Traces.e3c7.road 10 0 4 5 = true ∧
    -- the car did not switch left in the overtake step
    overtakeStage Traces.e3c7.road 10 5 true 0 4 5 5 = (5, 0) ∧
    -- but the code keeps it in lane 0, because of the car behind at (1,0)
    planCar Traces.e3c7.road 10 2 5 true 0 4 4 = (5, 0) ∧
    cellAt Traces.e3c7.road 1 0 = 2 ∧
    cellAt Traces.e4c7.road 0 9 = 1 ∧
    cellAt Traces.e4c7.road 1 9 = -1 := by
  decide

/-- One unfolding of the `calibrate` loop when the guard holds and the
iteration does not end with both parameters edged. -/
theorem Calibration.calibLoop_advance (c : Calibration) (meas : Nat → ℚ)
    (s : Calibration.IterState) (res : Option Calibration.CalibRes) (n : Nat)
    (hg : Calibration.loopGuard c s = true)
    (hbe : (Calibration.calibIterate c (meas (s.counter + 1)) s).2.bothEdged = false) :
    Calibration.calibLoop c meas s res (n + 1) =
      Calibration.calibLoop c meas
        (Calibration.calibIterate c (meas (s.counter + 1)) s).1
        (some (Calibration.calibIterate c (meas (s.counter + 1)) s).2) n := by
  simp [Calibration.calibLoop, hg, hbe]

/-- Tail of the `run9` loop from its 100th (final) state. -/
theorem c9chain_99 :
    Calibration.calibLoop Traces.c9cfg Traces.meas9 (Traces.c9states.getD 99 default)
      (some (Traces.c9ress.getD 98 default)) 1 = some (Traces.c9ress.getD 99 default) := by
  decide

/-- Tail of the `run9` loop from its loop state number 98. -/
theorem c9chain_98 :
    Calibration.calibLoop Traces.c9cfg Traces.meas9 (Traces.c9states.getD 98 default)
      (some (Traces.c9ress.getD 97 default)) 2 = some (Traces.c9ress.getD 99 default) :=
  (Calibration.calibLoop_advance Traces.c9cfg Traces.meas9 (Traces.c9states.getD 98 default)
    (some (Traces.c9ress.getD 97 default)) 1 (by decide) (by decide)).trans c9chain_99

/-- Tail of the `run9` loop from its loop state number 97. -/
theorem c9chain_97 :
    Calibration.calibLoop Traces.c9cfg Traces.meas9 (Traces.c9states.getD 97 default)
      (some (Traces.c9ress.getD 96 default)) 3 = some (Traces.c9ress.getD 99 default) :=
  (Calibration.calibLoop_advance Traces.c9cfg Traces.meas9 (Traces.c9states.getD 97 default)
    (some (Traces.c9ress.getD 96 default)) 2 (by decide) (by decide)).trans c9chain_98

/-- Tail of the `run9` loop from its loop state number 96. -/
theorem c9chain_96 :
    Calibration.calibLoop Traces.c9cfg Traces.meas9 (Traces.c9states.getD 96 default)
      (some (Traces.c9ress.getD 95 default)) 4 = some (Traces.c9ress.getD 99 default) :=
  (Calibration.calibLoop_advance Traces.c9cfg Traces.meas9 (Traces.c9states.getD 96 default)
    (some (Traces.c9ress.getD 95 default)) 3 (by decide) (by decide)).trans c9chain_97

/-- Tail of the `run9` loop from its loop state number 95. -/
theorem c9chain_95 :
    Calibration.calibLoop Traces.c9cfg Traces.meas9 (Traces.c9states.getD 95 default)
      (some (Traces.c9ress.getD 94 default)) 5 = some (Traces.c9ress.getD 99 default) :=
  (Calibration.calibLoop_advance Traces.c9cfg Traces.meas9 (Traces.c9states.getD 95 default)
    (some (Traces.c9ress.getD 94 default)) 4 (by decide) (by decide)).trans c9chain_96

/-- Tail of the `run9` loop from its loop state number 94. -/
theorem c9chain_94 :
    Calibration.calibLoop Traces.c9cfg Traces.meas9 (Traces.c9states.getD 94 default)
      (some (Traces.c9ress.getD 93 default)) 6 = some (Traces.c9ress.getD 99 default) :=
  (Calibration.calibLoop_advance Traces.c9cfg Traces.meas9 (Traces.c9states.getD 94 default)
    (some (Traces.c9ress.getD 93 default)) 5 (by decide) (by decide)).trans c9chain_95

/-- Tail of the `run9` loop from its loop state number 93. -/
theorem c9chain_93 :
    Calibration.calibLoop Traces.c9cfg Traces.meas9 (Traces.c9states.getD 93 default)
      (some (Traces.c9ress.getD 92 default)) 7 = some (Traces.c9ress.getD 99 default) :=
  (Calibration.calibLoop_advance Traces.c9cfg Traces.meas9 (Traces.c9states.getD 93 default)
    (some (Traces.c9ress.getD 92 default)) 6 (by decide) (by decide)).trans c9chain_94

/-- Tail of the `run9` loop from its loop state number 92. -/
theorem c9chain_92 :
    Calibration.calibLoop Traces.c9cfg Traces.meas9 (Traces.c9states.getD 92 default)
      (some (Traces.c9ress.getD 91 default)) 8 = some (Traces.c9ress.getD 99 default) :=
  (Calibration.calibLoop_advance Traces.c9cfg Traces.meas9 (Traces.c9states.getD 92 default)
    (some (Traces.c9ress.getD 91 default)) 7 (by decide) (by decide)).trans c9chain_93

/-- Tail of the `run9` loop from its loop state number 91. -/
theorem c9chain_91 :
    Calibration.calibLoop Traces.c9cfg Traces.meas9 (Traces.c9states.getD 91 default)
      (some (Traces.c9ress.getD 90 default)) 9 = some (Traces.c9ress.getD 99 default) :=
  (Calibration.calibLoop_advance Traces.c9cfg Traces.meas9 (Traces.c9states.getD 91 default)
    (some (Traces.c9ress.getD 90 default)) 8 (by decide) (by decide)).trans c9chain_92

/-- Tail of the `run9` loop from its loop state number 90. -/
theorem c9chain_90 :
    Calibration.calibLoop Traces.c9cfg Traces.meas9 (Traces.c9states.getD 90 default)
      (some (Traces.c9ress.getD 89 default)) 10 = some (Traces.c9ress.getD 99 default) :=
  (Calibration.calibLoop_advance Traces.c9cfg Traces.meas9 (Traces.c9states.getD 90 default)
    (some (Traces.c9ress.getD 89 default)) 9 (by decide) (by decide)).trans c9chain_91

/-- Tail of the `run9` loop from its loop state number 89. -/
theorem c9chain_89 :
    Calibration.calibLoop Traces.c9cfg Traces.meas9 (Traces.c9states.getD 89 default)
      (some (Traces.c9ress.getD 88 default)) 11 = some (Traces.c9ress.getD 99 default) :=
  (Calibration.calibLoop_advance Traces.c9cfg Traces.meas9 (Traces.c9states.getD 89 default)
    (some (Traces.c9ress.getD 88 default)) 10 (by decide) (by decide)).trans c9chain_90

/-- Tail of the `run9` loop from its loop state number 88. -/
theorem c9chain_88 :
    Calibration.calibLoop Traces.c9cfg Traces.meas9 (Traces.c9states.getD 88 default)
      (some (Traces.c9ress.getD 87 default)) 12 = some (Traces.c9ress.getD 99 default) :=
  (Calibration.calibLoop_advance Traces.c9cfg Traces.meas9 (Traces.c9states.getD 88 default)
    (some (Traces.c9ress.getD 87 default)) 11 (by decide) (by decide)).trans c9chain_89

/-- Tail of the `run9` loop from its loop state number 87. -/
theorem c9chain_87 :
    Calibration.calibLoop Traces.c9cfg Traces.meas9 (Traces.c9states.getD 87 default)
      (some (Traces.c9ress.getD 86 default)) 13 = some (Traces.c9ress.getD 99 default) :=
  (Calibration.calibLoop_advance Traces.c9cfg Traces.meas9 (Traces.c9states.getD 87 default)
    (some (Traces.c9ress.getD 86 default)) 12 (by decide) (by decide)).trans c9chain_88

/-- Tail of the `run9` loop from its loop state number 86. -/
theorem c9chain_86 :
    Calibration.calibLoop Traces.c9cfg Traces.meas9 (Traces.c9states.getD 86 default)
      (some (Traces.c9ress.getD 85 default)) 14 = some (Traces.c9ress.getD 99 default) :=
  (Calibration.calibLoop_advance Traces.c9cfg Traces.meas9 (Traces.c9states.getD 86 default)
    (some (Traces.c9ress.getD 85 default)) 13 (by decide) (by decide)).trans c9chain_87

/-- Tail of the `run9` loop from its loop state number 85. -/
theorem c9chain_85 :
    Calibration.calibLoop Traces.c9cfg Traces.meas9 (Traces.c9states.getD 85 default)
      (some (Traces.c9ress.getD 84 default)) 15 = some (Traces.c9ress.getD 99 default) :=
  (Calibration.calibLoop_advance Traces.c9cfg Traces.meas9 (Traces.c9states.getD 85 default)
    (some (Traces.c9ress.getD 84 default)) 14 (by decide) (by decide)).trans c9chain_86

/-- Tail of the `run9` loop from its loop state number 84. -/
theorem c9chain_84 :
    Calibration.calibLoop Traces.c9cfg Traces.meas9 (Traces.c9states.getD 84 default)
      (some (Traces.c9ress.getD 83 default)) 16 = some (Traces.c9ress.getD 99 default) :=
  (Calibration.calibLoop_advance Traces.c9cfg Traces.meas9 (Traces.c9states.getD 84 default)
    (some (Traces.c9ress.getD 83 default)) 15 (by decide) (by decide)).trans c9chain_85

/-- Tail of the `run9` loop from its loop state number 83. -/
theorem c9chain_83 :
    Calibration.calibLoop Traces.c9cfg Traces.meas9 (Traces.c9states.getD 83 default)
      (some (Traces.c9ress.getD 82 default)) 17 = some (Traces.c9ress.getD 99 default) :=
  (Calibration.calibLoop_advance Traces.c9cfg Traces.meas9 (Traces.c9states.getD 83 default)
    (some (Traces.c9ress.getD 82 default)) 16 (by decide) (by decide)).trans c9chain_84

/-- Tail of the `run9` loop from its loop state number 82. -/
theorem c9chain_82 :
    Calibration.calibLoop Traces.c9cfg Traces.meas9 (Traces.c9states.getD 82 default)
      (some (Traces.c9ress.getD 81 default)) 18 = some (Traces.c9ress.getD 99 default) :=
  (Calibration.calibLoop_advance Traces.c9cfg Traces.meas9 (Traces.c9states.getD 82 default)
    (some (Traces.c9ress.getD 81 default)) 17 (by decide) (by decide)).trans c9chain_83

/-- Tail of the `run9` loop from its loop state number 81. -/
theorem c9chain_81 :
    Calibration.calibLoop Traces.c9cfg Traces.meas9 (Traces.c9states.getD 81 default)
      (some (Traces.c9ress.getD 80 default)) 19 = some (Traces.c9ress.getD 99 default) :=
  (Calibration.calibLoop_advance Traces.c9cfg Traces.meas9 (Traces.c9states.getD 81 default)
    (some (Traces.c9ress.getD 80 default)) 18 (by decide) (by decide)).trans c9chain_82

/-- Tail of the `run9` loop from its loop state number 80. -/
theorem c9chain_80 :
    Calibration.calibLoop Traces.c9cfg Traces.meas9 (Traces.c9states.getD 80 default)
      (some (Traces.c9ress.getD 79 default)) 20 = some (Traces.c9ress.getD 99 default) :=
  (Calibration.calibLoop_advance Traces.c9cfg Traces.meas9 (Traces.c9states.getD 80 default)
    (some (Traces.c9ress.getD 79 default)) 19 (by decide) (by decide)).trans c9chain_81

/-- Tail of the `run9` loop from its loop state number 79. -/
theorem c9chain_79 :
    Calibration.calibLoop Traces.c9cfg Traces.meas9 (Traces.c9states.getD 79 default)
      (some (Traces.c9ress.getD 78 default)) 21 = some (Traces.c9ress.getD 99 default) :=
  (Calibration.calibLoop_advance Traces.c9cfg Traces.meas9 (Traces.c9states.getD 79 default)
    (some (Traces.c9ress.getD 78 default)) 20 (by decide) (by decide)).trans c9chain_80

/-- Tail of the `run9` loop from its loop state number 78. -/
theorem c9chain_78 :
    Calibration.calibLoop Traces.c9cfg Traces.meas9 (Traces.c9states.getD 78 default)
      (some (Traces.c9ress.getD 77 default)) 22 = some (Traces.c9ress.getD 99 default) :=
  (Calibration.calibLoop_advance Traces.c9cfg Traces.meas9 (Traces.c9states.getD 78 default)
    (some (Traces.c9ress.getD 77 default)) 21 (by decide) (by decide)).trans c9chain_79

/-- Tail of the `run9` loop from its loop state number 77. -/
theorem c9chain_77 :
    Calibration.calibLoop Traces.c9cfg Traces.meas9 (Traces.c9states.getD 77 default)
      (some (Traces.c9ress.getD 76 default)) 23 = some (Traces.c9ress.getD 99 default) :=
  (Calibration.calibLoop_advance Traces.c9cfg Traces.meas9 (Traces.c9states.getD 77 default)
    (some (Traces.c9ress.getD 76 default)) 22 (by decide) (by decide)).trans c9chain_78

/-- Tail of the `run9` loop from its loop state number 76. -/
theorem c9chain_76 :
    Calibration.calibLoop Traces.c9cfg Traces.meas9 (Traces.c9states.getD 76 default)
      (some (Traces.c9ress.getD 75 default)) 24 = some (Traces.c9ress.getD 99 default) :=
  (Calibration.calibLoop_advance Traces.c9cfg Traces.meas9 (Traces.c9states.getD 76 default)
    (some (Traces.c9ress.getD 75 default)) 23 (by decide) (by decide)).trans c9chain_77

/-- Tail of the `run9` loop from its loop state number 75. -/
theorem c9chain_75 :
    Calibration.calibLoop Traces.c9cfg Traces.meas9 (Traces.c9states.getD 75 default)
      (some (Traces.c9ress.getD 74 default)) 25 = some (Traces.c9ress.getD 99 default) :=
  (Calibration.calibLoop_advance Traces.c9cfg Traces.meas9 (Traces.c9states.getD 75 default)
    (some (Traces.c9ress.getD 74 default)) 24 (by decide) (by decide)).trans c9chain_76

/-- Tail of the `run9` loop from its loop state number 74. -/
theorem c9chain_74 :
    Calibration.calibLoop Traces.c9cfg Traces.meas9 (Traces.c9states.getD 74 default)
      (some (Traces.c9ress.getD 73 default)) 26 = some (Traces.c9ress.getD 99 default) :=
  (Calibration.calibLoop_advance Traces.c9cfg Traces.meas9 (Traces.c9states.getD 74 default)
    (some (Traces.c9ress.getD 73 default)) 25 (by decide) (by decide)).trans c9chain_75

/-- Tail of the `run9` loop from its loop state number 73. -/
theorem c9chain_73 :
    Calibration.calibLoop Traces.c9cfg Traces.meas9 (Traces.c9states.getD 73 default)
      (some (Traces.c9ress.getD 72 default)) 27 = some (Traces.c9ress.getD 99 default) :=
  (Calibration.calibLoop_advance Traces.c9cfg Traces.meas9 (Traces.c9states.getD 73 default)
    (some (Traces.c9ress.getD 72 default)) 26 (by decide) (by decide)).trans c9chain_74

/-- Tail of the `run9` loop from its loop state number 72. -/
theorem c9chain_72 :
    Calibration.calibLoop Traces.c9cfg Traces.meas9 (Traces.c9states.getD 72 default)
      (some (Traces.c9ress.getD 71 default)) 28 = some (Traces.c9ress.getD 99 default) :=
  (Calibration.calibLoop_advance Traces.c9cfg Traces.meas9 (Traces.c9states.getD 72 default)
    (some (Traces.c9ress.getD 71 default)) 27 (by decide) (by decide)).trans c9chain_73

/-- Tail of the `run9` loop from its loop state number 71. -/
theorem c9chain_71 :
    Calibration.calibLoop Traces.c9cfg Traces.meas9 (Traces.c9states.getD 71 default)
      (some (Traces.c9ress.getD 70 default)) 29 = some (Traces.c9ress.getD 99 default) :=
  (Calibration.calibLoop_advance Traces.c9cfg Traces.meas9 (Traces.c9states.getD 71 default)
    (some (Traces.c9ress.getD 70 default)) 28 (by decide) (by decide)).trans c9chain_72

/-- Tail of the `run9` loop from its loop state number 70. -/
theorem c9chain_70 :
    Calibration.calibLoop Traces.c9cfg Traces.meas9 (Traces.c9states.getD 70 default)
      (some (Traces.c9ress.getD 69 default)) 30 = some (Traces.c9ress.getD 99 default) :=
  (Calibration.calibLoop_advance Traces.c9cfg Traces.meas9 (Traces.c9states.getD 70 default)
    (some (Traces.c9ress.getD 69 default)) 29 (by decide) (by decide)).trans c9chain_71

/-- Tail of the `run9` loop from its loop state number 69. -/
theorem c9chain_69 :
    Calibration.calibLoop Traces.c9cfg Traces.meas9 (Traces.c9states.getD 69 default)
      (some (Traces.c9ress.getD 68 default)) 31 = some (Traces.c9ress.getD 99 default) :=
  (Calibration.calibLoop_advance Traces.c9cfg Traces.meas9 (Traces.c9states.getD 69 default)
    (some (Traces.c9ress.getD 68 default)) 30 (by decide) (by decide)).trans c9chain_70

/-- Tail of the `run9` loop from its loop state number 68. -/
theorem c9chain_68 :
    Calibration.calibLoop Traces.c9cfg Traces.meas9 (Traces.c9states.getD 68 default)
      (some (Traces.c9ress.getD 67 default)) 32 = some (Traces.c9ress.getD 99 default) :=
  (Calibration.calibLoop_advance Traces.c9cfg Traces.meas9 (Traces.c9states.getD 68 default)
    (some (Traces.c9ress.getD 67 default)) 31 (by decide) (by decide)).trans c9chain_69

/-- Tail of the `run9` loop from its loop state number 67. -/
theorem c9chain_67 :
    Calibration.calibLoop Traces.c9cfg Traces.meas9 (Traces.c9states.getD 67 default)
      (some (Traces.c9ress.getD 66 default)) 33 = some (Traces.c9ress.getD 99 default) :=
  (Calibration.calibLoop_advance Traces.c9cfg Traces.meas9 (Traces.c9states.getD 67 default)
    (some (Traces.c9ress.getD 66 default)) 32 (by decide) (by decide)).trans c9chain_68

/-- Tail of the `run9` loop from its loop state number 66. -/
theorem c9chain_66 :
    Calibration.calibLoop Traces.c9cfg Traces.meas9 (Traces.c9states.getD 66 default)
      (some (Traces.c9ress.getD 65 default)) 34 = some (Traces.c9ress.getD 99 default) :=
  (Calibration.calibLoop_advance Traces.c9cfg Traces.meas9 (Traces.c9states.getD 66 default)
    (some (Traces.c9ress.getD 65 default)) 33 (by decide) (by decide)).trans c9chain_67

/-- Tail of the `run9` loop from its loop state number 65. -/
theorem c9chain_65 :
    Calibration.calibLoop Traces.c9cfg Traces.meas9 (Traces.c9states.getD 65 default)
      (some (Traces.c9ress.getD 64 default)) 35 = some (Traces.c9ress.getD 99 default) :=
  (Calibration.calibLoop_advance Traces.c9cfg Traces.meas9 (Traces.c9states.getD 65 default)
    (some (Traces.c9ress.getD 64 default)) 34 (by decide) (by decide)).trans c9chain_66

/-- Tail of the `run9` loop from its loop state number 64. -/
theorem c9chain_64 :
    Calibration.calibLoop Traces.c9cfg Traces.meas9 (Traces.c9states.getD 64 default)
      (some (Traces.c9ress.getD 63 default)) 36 = some (Traces.c9ress.getD 99 default) :=
  (Calibration.calibLoop_advance Traces.c9cfg Traces.meas9 (Traces.c9states.getD 64 default)
    (some (Traces.c9ress.getD 63 default)) 35 (by decide) (by decide)).trans c9chain_65

/-- Tail of the `run9` loop from its loop state number 63. -/
theorem c9chain_63 :
    Calibration.calibLoop Traces.c9cfg Traces.meas9 (Traces.c9states.getD 63 default)
      (some (Traces.c9ress.getD 62 default)) 37 = some (Traces.c9ress.getD 99 default) :=
  (Calibration.calibLoop_advance Traces.c9cfg Traces.meas9 (Traces.c9states.getD 63 default)
    (some (Traces.c9ress.getD 62 default)) 36 (by decide) (by decide)).trans c9chain_64

/-- Tail of the `run9` loop from its loop state number 62. -/
theorem c9chain_62 :
    Calibration.calibLoop Traces.c9cfg Traces.meas9 (Traces.c9states.getD 62 default)
      (some (Traces.c9ress.getD 61 default)) 38 = some (Traces.c9ress.getD 99 default) :=
  (Calibration.calibLoop_advance Traces.c9cfg Traces.meas9 (Traces.c9states.getD 62 default)
    (some (Traces.c9ress.getD 61 default)) 37 (by decide) (by decide)).trans c9chain_63

/-- Tail of the `run9` loop from its loop state number 61. -/
theorem c9chain_61 :
    Calibration.calibLoop Traces.c9cfg Traces.meas9 (Traces.c9states.getD 61 default)
      (some (Traces.c9ress.getD 60 default)) 39 = some (Traces.c9ress.getD 99 default) :=
  (Calibration.calibLoop_advance Traces.c9cfg Traces.meas9 (Traces.c9states.getD 61 default)
    (some (Traces.c9ress.getD 60 default)) 38 (by decide) (by decide)).trans c9chain_62

/-- Tail of the `run9` loop from its loop state number 60. -/
theorem c9chain_60 :
    Calibration.calibLoop Traces.c9cfg Traces.meas9 (Traces.c9states.getD 60 default)
      (some (Traces.c9ress.getD 59 default)) 40 = some (Traces.c9ress.getD 99 default) :=
  (Calibration.calibLoop_advance Traces.c9cfg Traces.meas9 (Traces.c9states.getD 60 default)
    (some (Traces.c9ress.getD 59 default)) 39 (by decide) (by decide)).trans c9chain_61

/-- Tail of the `run9` loop from its loop state number 59. -/
theorem c9chain_59 :
    Calibration.calibLoop Traces.c9cfg Traces.meas9 (Traces.c9states.getD 59 default)
      (some (Traces.c9ress.getD 58 default)) 41 = some (Traces.c9ress.getD 99 default) :=
  (Calibration.calibLoop_advance Traces.c9cfg Traces.meas9 (Traces.c9states.getD 59 default)
    (some (Traces.c9ress.getD 58 default)) 40 (by decide) (by decide)).trans c9chain_60

/-- Tail of the `run9` loop from its loop state number 58. -/
theorem c9chain_58 :
    Calibration.calibLoop Traces.c9cfg Traces.meas9 (Traces.c9states.getD 58 default)
      (some (Traces.c9ress.getD 57 default)) 42 = some (Traces.c9ress.getD 99 default) :=
  (Calibration.calibLoop_advance Traces.c9cfg Traces.meas9 (Traces.c9states.getD 58 default)
    (some (Traces.c9ress.getD 57 default)) 41 (by decide) (by decide)).trans c9chain_59

/-- Tail of the `run9` loop from its loop state number 57. -/
theorem c9chain_57 :
    Calibration.calibLoop Traces.c9cfg Traces.meas9 (Traces.c9states.getD 57 default)
      (some (Traces.c9ress.getD 56 default)) 43 = some (Traces.c9ress.getD 99 default) :=
  (Calibration.calibLoop_advance Traces.c9cfg Traces.meas9 (Traces.c9states.getD 57 default)
    (some (Traces.c9ress.getD 56 default)) 42 (by decide) (by decide)).trans c9chain_58

/-- Tail of the `run9` loop from its loop state number 56. -/
theorem c9chain_56 :
    Calibration.calibLoop Traces.c9cfg Traces.meas9 (Traces.c9states.getD 56 default)
      (some (Traces.c9ress.getD 55 default)) 44 = some (Traces.c9ress.getD 99 default) :=
  (Calibration.calibLoop_advance Traces.c9cfg Traces.meas9 (Traces.c9states.getD 56 default)
    (some (Traces.c9ress.getD 55 default)) 43 (by decide) (by decide)).trans c9chain_57

/-- Tail of the `run9` loop from its loop state number 55. -/
theorem c9chain_55 :
    Calibration.calibLoop Traces.c9cfg Traces.meas9 (Traces.c9states.getD 55 default)
      (some (Traces.c9ress.getD 54 default)) 45 = some (Traces.c9ress.getD 99 default) :=
  (Calibration.calibLoop_advance Traces.c9cfg Traces.meas9 (Traces.c9states.getD 55 default)
    (some (Traces.c9ress.getD 54 default)) 44 (by decide) (by decide)).trans c9chain_56

/-- Tail of the `run9` loop from its loop state number 54. -/
theorem c9chain_54 :
    Calibration.calibLoop Traces.c9cfg Traces.meas9 (Traces.c9states.getD 54 default)
      (some (Traces.c9ress.getD 53 default)) 46 = some (Traces.c9ress.getD 99 default) :=
  (Calibration.calibLoop_advance Traces.c9cfg Traces.meas9 (Traces.c9states.getD 54 default)
    (some (Traces.c9ress.getD 53 default)) 45 (by decide) (by decide)).trans c9chain_55

/-- Tail of the `run9` loop from its loop state number 53. -/
theorem c9chain_53 :
    Calibration.calibLoop Traces.c9cfg Traces.meas9 (Traces.c9states.getD 53 default)
      (some (Traces.c9ress.getD 52 default)) 47 = some (Traces.c9ress.getD 99 default) :=
  (Calibration.calibLoop_advance Traces.c9cfg Traces.meas9 (Traces.c9states.getD 53 default)
    (some (Traces.c9ress.getD 52 default)) 46 (by decide) (by decide)).trans c9chain_54

/-- Tail of the `run9` loop from its loop state number 52. -/
theorem c9chain_52 :
    Calibration.calibLoop Traces.c9cfg Traces.meas9 (Traces.c9states.getD 52 default)
      (some (Traces.c9ress.getD 51 default)) 48 = some (Traces.c9ress.getD 99 default) :=
  (Calibration.calibLoop_advance Traces.c9cfg Traces.meas9 (Traces.c9states.getD 52 default)
    (some (Traces.c9ress.getD 51 default)) 47 (by decide) (by decide)).trans c9chain_53

/-- Tail of the `run9` loop from its loop state number 51. -/
theorem c9chain_51 :
    Calibration.calibLoop Traces.c9cfg Traces.meas9 (Traces.c9states.getD 51 default)
      (some (Traces.c9ress.getD 50 default)) 49 = some (Traces.c9ress.getD 99 default) :=
  (Calibration.calibLoop_advance Traces.c9cfg Traces.meas9 (Traces.c9states.getD 51 default)
    (some (Traces.c9ress.getD 50 default)) 48 (by decide) (by decide)).trans c9chain_52

/-- Tail of the `run9` loop from its loop state number 50. -/
theorem c9chain_50 :
    Calibration.calibLoop Traces.c9cfg Traces.meas9 (Traces.c9states.getD 50 default)
      (some (Traces.c9ress.getD 49 default)) 50 = some (Traces.c9ress.getD 99 default) :=
  (Calibration.calibLoop_advance Traces.c9cfg Traces.meas9 (Traces.c9states.getD 50 default)
    (some (Traces.c9ress.getD 49 default)) 49 (by decide) (by decide)).trans c9chain_51

/-- Tail of the `run9` loop from its loop state number 49. -/
theorem c9chain_49 :
    Calibration.calibLoop Traces.c9cfg Traces.meas9 (Traces.c9states.getD 49 default)
      (some (Traces.c9ress.getD 48 default)) 51 = some (Traces.c9ress.getD 99 default) :=
  (Calibration.calibLoop_advance Traces.c9cfg Traces.meas9 (Traces.c9states.getD 49 default)
    (some (Traces.c9ress.getD 48 default)) 50 (by decide) (by decide)).trans c9chain_50

/-- Tail of the `run9` loop from its loop state number 48. -/
theorem c9chain_48 :
    Calibration.calibLoop Traces.c9cfg Traces.meas9 (Traces.c9states.getD 48 default)
      (some (Traces.c9ress.getD 47 default)) 52 = some (Traces.c9ress.getD 99 default) :=
  (Calibration.calibLoop_advance Traces.c9cfg Traces.meas9 (Traces.c9states.getD 48 default)
    (some (Traces.c9ress.getD 47 default)) 51 (by decide) (by decide)).trans c9chain_49

/-- Tail of the `run9` loop from its loop state number 47. -/
theorem c9chain_47 :
    Calibration.calibLoop Traces.c9cfg Traces.meas9 (Traces.c9states.getD 47 default)
      (some (Traces.c9ress.getD 46 default)) 53 = some (Traces.c9ress.getD 99 default) :=
  (Calibration.calibLoop_advance Traces.c9cfg Traces.meas9 (Traces.c9states.getD 47 default)
    (some (Traces.c9ress.getD 46 default)) 52 (by decide) (by decide)).trans c9chain_48

/-- Tail of the `run9` loop from its loop state number 46. -/
theorem c9chain_46 :
    Calibration.calibLoop Traces.c9cfg Traces.meas9 (Traces.c9states.getD 46 default)
      (some (Traces.c9ress.getD 45 default)) 54 = some (Traces.c9ress.getD 99 default) :=
  (Calibration.calibLoop_advance Traces.c9cfg Traces.meas9 (Traces.c9states.getD 46 default)
    (some (Traces.c9ress.getD 45 default)) 53 (by decide) (by decide)).trans c9chain_47

/-- Tail of the `run9` loop from its loop state number 45. -/
theorem c9chain_45 :
    Calibration.calibLoop Traces.c9cfg Traces.meas9 (Traces.c9states.getD 45 default)
      (some (Traces.c9ress.getD 44 default)) 55 = some (Traces.c9ress.getD 99 default) :=
  (Calibration.calibLoop_advance Traces.c9cfg Traces.meas9 (Traces.c9states.getD 45 default)
    (some (Traces.c9ress.getD 44 default)) 54 (by decide) (by decide)).trans c9chain_46

/-- Tail of the `run9` loop from its loop state number 44. -/
theorem c9chain_44 :
    Calibration.calibLoop Traces.c9cfg Traces.meas9 (Traces.c9states.getD 44 default)
      (some (Traces.c9ress.getD 43 default)) 56 = some (Traces.c9ress.getD 99 default) :=
  (Calibration.calibLoop_advance Traces.c9cfg Traces.meas9 (Traces.c9states.getD 44 default)
    (some (Traces.c9ress.getD 43 default)) 55 (by decide) (by decide)).trans c9chain_45

/-- Tail of the `run9` loop from its loop state number 43. -/
theorem c9chain_43 :
    Calibration.calibLoop Traces.c9cfg Traces.meas9 (Traces.c9states.getD 43 default)
      (some (Traces.c9ress.getD 42 default)) 57 = some (Traces.c9ress.getD 99 default) :=
  (Calibration.calibLoop_advance Traces.c9cfg Traces.meas9 (Traces.c9states.getD 43 default)
    (some (Traces.c9ress.getD 42 default)) 56 (by decide) (by decide)).trans c9chain_44

/-- Tail of the `run9` loop from its loop state number 42. -/
theorem c9chain_42 :
    Calibration.calibLoop Traces.c9cfg Traces.meas9 (Traces.c9states.getD 42 default)
      (some (Traces.c9ress.getD 41 default)) 58 = some (Traces.c9ress.getD 99 default) :=
  (Calibration.calibLoop_advance Traces.c9cfg Traces.meas9 (Traces.c9states.getD 42 default)
    (some (Traces.c9ress.getD 41 default)) 57 (by decide) (by decide)).trans c9chain_43

/-- Tail of the `run9` loop from its loop state number 41. -/
theorem c9chain_41 :
    Calibration.calibLoop Traces.c9cfg Traces.meas9 (Traces.c9states.getD 41 default)
      (some (Traces.c9ress.getD 40 default)) 59 = some (Traces.c9ress.getD 99 default) :=
  (Calibration.calibLoop_advance Traces.c9cfg Traces.meas9 (Traces.c9states.getD 41 default)
    (some (Traces.c9ress.getD 40 default)) 58 (by decide) (by decide)).trans c9chain_42

/-- Tail of the `run9` loop from its loop state number 40. -/
theorem c9chain_40 :
    Calibration.calibLoop Traces.c9cfg Traces.meas9 (Traces.c9states.getD 40 default)
      (some (Traces.c9ress.getD 39 default)) 60 = some (Traces.c9ress.getD 99 default) :=
  (Calibration.calibLoop_advance Traces.c9cfg Traces.meas9 (Traces.c9states.getD 40 default)
    (some (Traces.c9ress.getD 39 default)) 59 (by decide) (by decide)).trans c9chain_41

/-- Tail of the `run9` loop from its loop state number 39. -/
theorem c9chain_39 :
    Calibration.calibLoop Traces.c9cfg Traces.meas9 (Traces.c9states.getD 39 default)
      (some (Traces.c9ress.getD 38 default)) 61 = some (Traces.c9ress.getD 99 default) :=
  (Calibration.calibLoop_advance Traces.c9cfg Traces.meas9 (Traces.c9states.getD 39 default)
    (some (Traces.c9ress.getD 38 default)) 60 (by decide) (by decide)).trans c9chain_40

/-- Tail of the `run9` loop from its loop state number 38. -/
theorem c9chain_38 :
    Calibration.calibLoop Traces.c9cfg Traces.meas9 (Traces.c9states.getD 38 default)
      (some (Traces.c9ress.getD 37 default)) 62 = some (Traces.c9ress.getD 99 default) :=
  (Calibration.calibLoop_advance Traces.c9cfg Traces.meas9 (Traces.c9states.getD 38 default)
    (some (Traces.c9ress.getD 37 default)) 61 (by decide) (by decide)).trans c9chain_39

/-- Tail of the `run9` loop from its loop state number 37. -/
theorem c9chain_37 :
    Calibration.calibLoop Traces.c9cfg Traces.meas9 (Traces.c9states.getD 37 default)
      (some (Traces.c9ress.getD 36 default)) 63 = some (Traces.c9ress.getD 99 default) :=
  (Calibration.calibLoop_advance Traces.c9cfg Traces.meas9 (Traces.c9states.getD 37 default)
    (some (Traces.c9ress.getD 36 default)) 62 (by decide) (by decide)).trans c9chain_38

/-- Tail of the `run9` loop from its loop state number 36. -/
theorem c9chain_36 :
    Calibration.calibLoop Traces.c9cfg Traces.meas9 (Traces.c9states.getD 36 default)
      (some (Traces.c9ress.getD 35 default)) 64 = some (Traces.c9ress.getD 99 default) :=
  (Calibration.calibLoop_advance Traces.c9cfg Traces.meas9 (Traces.c9states.getD 36 default)
    (some (Traces.c9ress.getD 35 default)) 63 (by decide) (by decide)).trans c9chain_37

/-- Tail of the `run9` loop from its loop state number 35. -/
theorem c9chain_35 :
    Calibration.calibLoop Traces.c9cfg Traces.meas9 (Traces.c9states.getD 35 default)
      (some (Traces.c9ress.getD 34 default)) 65 = some (Traces.c9ress.getD 99 default) :=
  (Calibration.calibLoop_advance Traces.c9cfg Traces.meas9 (Traces.c9states.getD 35 default)
    (some (Traces.c9ress.getD 34 default)) 64 (by decide) (by decide)).trans c9chain_36

/-- Tail of the `run9` loop from its loop state number 34. -/
theorem c9chain_34 :
    Calibration.calibLoop Traces.c9cfg Traces.meas9 (Traces.c9states.getD 34 default)
      (some (Traces.c9ress.getD 33 default)) 66 = some (Traces.c9ress.getD 99 default) :=
  (Calibration.calibLoop_advance Traces.c9cfg Traces.meas9 (Traces.c9states.getD 34 default)
    (some (Traces.c9ress.getD 33 default)) 65 (by decide) (by decide)).trans c9chain_35

/-- Tail of the `run9` loop from its loop state number 33. -/
theorem c9chain_33 :
    Calibration.calibLoop Traces.c9cfg Traces.meas9 (Traces.c9states.getD 33 default)
      (some (Traces.c9ress.getD 32 default)) 67 = some (Traces.c9ress.getD 99 default) :=
  (Calibration.calibLoop_advance Traces.c9cfg Traces.meas9 (Traces.c9states.getD 33 default)
    (some (Traces.c9ress.getD 32 default)) 66 (by decide) (by decide)).trans c9chain_34

/-- Tail of the `run9` loop from its loop state number 32. -/
theorem c9chain_32 :
    Calibration.calibLoop Traces.c9cfg Traces.meas9 (Traces.c9states.getD 32 default)
      (some (Traces.c9ress.getD 31 default)) 68 = some (Traces.c9ress.getD 99 default) :=
  (Calibration.calibLoop_advance Traces.c9cfg Traces.meas9 (Traces.c9states.getD 32 default)
    (some (Traces.c9ress.getD 31 default)) 67 (by decide) (by decide)).trans c9chain_33

/-- Tail of the `run9` loop from its loop state number 31. -/
theorem c9chain_31 :
    Calibration.calibLoop Traces.c9cfg Traces.meas9 (Traces.c9states.getD 31 default)
      (some (Traces.c9ress.getD 30 default)) 69 = some (Traces.c9ress.getD 99 default) :=
  (Calibration.calibLoop_advance Traces.c9cfg Traces.meas9 (Traces.c9states.getD 31 default)
    (some (Traces.c9ress.getD 30 default)) 68 (by decide) (by decide)).trans c9chain_32

/-- Tail of the `run9` loop from its loop state number 30. -/
theorem c9chain_30 :
    Calibration.calibLoop Traces.c9cfg Traces.meas9 (Traces.c9states.getD 30 default)
      (some (Traces.c9ress.getD 29 default)) 70 = some (Traces.c9ress.getD 99 default) :=
  (Calibration.calibLoop_advance Traces.c9cfg Traces.meas9 (Traces.c9states.getD 30 default)
    (some (Traces.c9ress.getD 29 default)) 69 (by decide) (by decide)).trans c9chain_31

/-- Tail of the `run9` loop from its loop state number 29. -/
theorem c9chain_29 :
    Calibration.calibLoop Traces.c9cfg Traces.meas9 (Traces.c9states.getD 29 default)
      (some (Traces.c9ress.getD 28 default)) 71 = some (Traces.c9ress.getD 99 default) :=
  (Calibration.calibLoop_advance Traces.c9cfg Traces.meas9 (Traces.c9states.getD 29 default)
    (some (Traces.c9ress.getD 28 default)) 70 (by decide) (by decide)).trans c9chain_30

/-- Tail of the `run9` loop from its loop state number 28. -/
theorem c9chain_28 :
    Calibration.calibLoop Traces.c9cfg Traces.meas9 (Traces.c9states.getD 28 default)
      (some (Traces.c9ress.getD 27 default)) 72 = some (Traces.c9ress.getD 99 default) :=
  (Calibration.calibLoop_advance Traces.c9cfg Traces.meas9 (Traces.c9states.getD 28 default)
    (some (Traces.c9ress.getD 27 default)) 71 (by decide) (by decide)).trans c9chain_29

/-- Tail of the `run9` loop from its loop state number 27. -/
theorem c9chain_27 :
    Calibration.calibLoop Traces.c9cfg Traces.meas9 (Traces.c9states.getD 27 default)
      (some (Traces.c9ress.getD 26 default)) 73 = some (Traces.c9ress.getD 99 default) :=
  (Calibration.calibLoop_advance Traces.c9cfg Traces.meas9 (Traces.c9states.getD 27 default)
    (some (Traces.c9ress.getD 26 default)) 72 (by decide) (by decide)).trans c9chain_28

/-- Tail of the `run9` loop from its loop state number 26. -/
theorem c9chain_26 :
    Calibration.calibLoop Traces.c9cfg Traces.meas9 (Traces.c9states.getD 26 default)
      (some (Traces.c9ress.getD 25 default)) 74 = some (Traces.c9ress.getD 99 default) :=
  (Calibration.calibLoop_advance Traces.c9cfg Traces.meas9 (Traces.c9states.getD 26 default)
    (some (Traces.c9ress.getD 25 default)) 73 (by decide) (by decide)).trans c9chain_27

/-- Tail of the `run9` loop from its loop state number 25. -/
theorem c9chain_25 :
    Calibration.calibLoop Traces.c9cfg Traces.meas9 (Traces.c9states.getD 25 default)
      (some (Traces.c9ress.getD 24 default)) 75 = some (Traces.c9ress.getD 99 default) :=
  (Calibration.calibLoop_advance Traces.c9cfg Traces.meas9 (Traces.c9states.getD 25 default)
    (some (Traces.c9ress.getD 24 default)) 74 (by decide) (by decide)).trans c9chain_26

/-- Tail of the `run9` loop from its loop state number 24. -/
theorem c9chain_24 :
    Calibration.calibLoop Traces.c9cfg Traces.meas9 (Traces.c9states.getD 24 default)
      (some (Traces.c9ress.getD 23 default)) 76 = some (Traces.c9ress.getD 99 default) :=
  (Calibration.calibLoop_advance Traces.c9cfg Traces.meas9 (Traces.c9states.getD 24 default)
    (some (Traces.c9ress.getD 23 default)) 75 (by decide) (by decide)).trans c9chain_25

/-- Tail of the `run9` loop from its loop state number 23. -/
theorem c9chain_23 :
    Calibration.calibLoop Traces.c9cfg Traces.meas9 (Traces.c9states.getD 23 default)
      (some (Traces.c9ress.getD 22 default)) 77 = some (Traces.c9ress.getD 99 default) :=
  (Calibration.calibLoop_advance Traces.c9cfg Traces.meas9 (Traces.c9states.getD 23 default)
    (some (Traces.c9ress.getD 22 default)) 76 (by decide) (by decide)).trans c9chain_24

/-- Tail of the `run9` loop from its loop state number 22. -/
theorem c9chain_22 :
    Calibration.calibLoop Traces.c9cfg Traces.meas9 (Traces.c9states.getD 22 default)
      (some (Traces.c9ress.getD 21 default)) 78 = some (Traces.c9ress.getD 99 default) :=
  (Calibration.calibLoop_advance Traces.c9cfg Traces.meas9 (Traces.c9states.getD 22 default)
    (some (Traces.c9ress.getD 21 default)) 77 (by decide) (by decide)).trans c9chain_23

/-- Tail of the `run9` loop from its loop state number 21. -/
theorem c9chain_21 :
    Calibration.calibLoop Traces.c9cfg Traces.meas9 (Traces.c9states.getD 21 default)
      (some (Traces.c9ress.getD 20 default)) 79 = some (Traces.c9ress.getD 99 default) :=
  (Calibration.calibLoop_advance Traces.c9cfg Traces.meas9 (Traces.c9states.getD 21 default)
    (some (Traces.c9ress.getD 20 default)) 78 (by decide) (by decide)).trans c9chain_22

/-- Tail of the `run9` loop from its loop state number 20. -/
theorem c9chain_20 :
    Calibration.calibLoop Traces.c9cfg Traces.meas9 (Traces.c9states.getD 20 default)
      (some (Traces.c9ress.getD 19 default)) 80 = some (Traces.c9ress.getD 99 default) :=
  (Calibration.calibLoop_advance Traces.c9cfg Traces.meas9 (Traces.c9states.getD 20 default)
    (some (Traces.c9ress.getD 19 default)) 79 (by decide) (by decide)).trans c9chain_21

/-- Tail of the `run9` loop from its loop state number 19. -/
theorem c9chain_19 :
    Calibration.calibLoop Traces.c9cfg Traces.meas9 (Traces.c9states.getD 19 default)
      (some (Traces.c9ress.getD 18 default)) 81 = some (Traces.c9ress.getD 99 default) :=
  (Calibration.calibLoop_advance Traces.c9cfg Traces.meas9 (Traces.c9states.getD 19 default)
    (some (Traces.c9ress.getD 18 default)) 80 (by decide) (by decide)).trans c9chain_20

/-- Tail of the `run9` loop from its loop state number 18. -/
theorem c9chain_18 :
    Calibration.calibLoop Traces.c9cfg Traces.meas9 (Traces.c9states.getD 18 default)
      (some (Traces.c9ress.getD 17 default)) 82 = some (Traces.c9ress.getD 99 default) :=
  (Calibration.calibLoop_advance Traces.c9cfg Traces.meas9 (Traces.c9states.getD 18 default)
    (some (Traces.c9ress.getD 17 default)) 81 (by decide) (by decide)).trans c9chain_19

/-- Tail of the `run9` loop from its loop state number 17. -/
theorem c9chain_17 :
    Calibration.calibLoop Traces.c9cfg Traces.meas9 (Traces.c9states.getD 17 default)
      (some (Traces.c9ress.getD 16 default)) 83 = some (Traces.c9ress.getD 99 default) :=
  (Calibration.calibLoop_advance Traces.c9cfg Traces.meas9 (Traces.c9states.getD 17 default)
    (some (Traces.c9ress.getD 16 default)) 82 (by decide) (by decide)).trans c9chain_18

/-- Tail of the `run9` loop from its loop state number 16. -/
theorem c9chain_16 :
    Calibration.calibLoop Traces.c9cfg Traces.meas9 (Traces.c9states.getD 16 default)
      (some (Traces.c9ress.getD 15 default)) 84 = some (Traces.c9ress.getD 99 default) :=
  (Calibration.calibLoop_advance Traces.c9cfg Traces.meas9 (Traces.c9states.getD 16 default)
    (some (Traces.c9ress.getD 15 default)) 83 (by decide) (by decide)).trans c9chain_17

/-- Tail of the `run9` loop from its loop state number 15. -/
theorem c9chain_15 :
    Calibration.calibLoop Traces.c9cfg Traces.meas9 (Traces.c9states.getD 15 default)
      (some (Traces.c9ress.getD 14 default)) 85 = some (Traces.c9ress.getD 99 default) :=
  (Calibration.calibLoop_advance Traces.c9cfg Traces.meas9 (Traces.c9states.getD 15 default)
    (some (Traces.c9ress.getD 14 default)) 84 (by decide) (by decide)).trans c9chain_16

/-- Tail of the `run9` loop from its loop state number 14. -/
theorem c9chain_14 :
    Calibration.calibLoop Traces.c9cfg Traces.meas9 (Traces.c9states.getD 14 default)
      (some (Traces.c9ress.getD 13 default)) 86 = some (Traces.c9ress.getD 99 default) :=
  (Calibration.calibLoop_advance Traces.c9cfg Traces.meas9 (Traces.c9states.getD 14 default)
    (some (Traces.c9ress.getD 13 default)) 85 (by decide) (by decide)).trans c9chain_15

/-- Tail of the `run9` loop from its loop state number 13. -/
theorem c9chain_13 :
    Calibration.calibLoop Traces.c9cfg Traces.meas9 (Traces.c9states.getD 13 default)
      (some (Traces.c9ress.getD 12 default)) 87 = some (Traces.c9ress.getD 99 default) :=
  (Calibration.calibLoop_advance Traces.c9cfg Traces.meas9 (Traces.c9states.getD 13 default)
    (some (Traces.c9ress.getD 12 default)) 86 (by decide) (by decide)).trans c9chain_14

/-- Tail of the `run9` loop from its loop state number 12. -/
theorem c9chain_12 :
    Calibration.calibLoop Traces.c9cfg Traces.meas9 (Traces.c9states.getD 12 default)
      (some (Traces.c9ress.getD 11 default)) 88 = some (Traces.c9ress.getD 99 default) :=
  (Calibration.calibLoop_advance Traces.c9cfg Traces.meas9 (Traces.c9states.getD 12 default)
    (some (Traces.c9ress.getD 11 default)) 87 (by decide) (by decide)).trans c9chain_13

/-- Tail of the `run9` loop from its loop state number 11. -/
theorem c9chain_11 :
    Calibration.calibLoop Traces.c9cfg Traces.meas9 (Traces.c9states.getD 11 default)
      (some (Traces.c9ress.getD 10 default)) 89 = some (Traces.c9ress.getD 99 default) :=
  (Calibration.calibLoop_advance Traces.c9cfg Traces.meas9 (Traces.c9states.getD 11 default)
    (some (Traces.c9ress.getD 10 default)) 88 (by decide) (by decide)).trans c9chain_12

/-- Tail of the `run9` loop from its loop state number 10. -/
theorem c9chain_10 :
    Calibration.calibLoop Traces.c9cfg Traces.meas9 (Traces.c9states.getD 10 default)
      (some (Traces.c9ress.getD 9 default)) 90 = some (Traces.c9ress.getD 99 default) :=
  (Calibration.calibLoop_advance Traces.c9cfg Traces.meas9 (Traces.c9states.getD 10 default)
    (some (Traces.c9ress.getD 9 default)) 89 (by decide) (by decide)).trans c9chain_11

/-- Tail of the `run9` loop from its loop state number 9. -/
theorem c9chain_9 :
    Calibration.calibLoop Traces.c9cfg Traces.meas9 (Traces.c9states.getD 9 default)
      (some (Traces.c9ress.getD 8 default)) 91 = some (Traces.c9ress.getD 99 default) :=
  (Calibration.calibLoop_advance Traces.c9cfg Traces.meas9 (Traces.c9states.getD 9 default)
    (some (Traces.c9ress.getD 8 default)) 90 (by decide) (by decide)).trans c9chain_10

/-- Tail of the `run9` loop from its loop state number 8. -/
theorem c9chain_8 :
    Calibration.calibLoop Traces.c9cfg Traces.meas9 (Traces.c9states.getD 8 default)
      (some (Traces.c9ress.getD 7 default)) 92 = some (Traces.c9ress.getD 99 default) :=
  (Calibration.calibLoop_advance Traces.c9cfg Traces.meas9 (Traces.c9states.getD 8 default)
    (some (Traces.c9ress.getD 7 default)) 91 (by decide) (by decide)).trans c9chain_9

/-- Tail of the `run9` loop from its loop state number 7. -/
theorem c9chain_7 :
    Calibration.calibLoop Traces.c9cfg Traces.meas9 (Traces.c9states.getD 7 default)
      (some (Traces.c9ress.getD 6 default)) 93 = some (Traces.c9ress.getD 99 default) :=
  (Calibration.calibLoop_advance Traces.c9cfg Traces.meas9 (Traces.c9states.getD 7 default)
    (some (Traces.c9ress.getD 6 default)) 92 (by decide) (by decide)).trans c9chain_8

/-- Tail of the `run9` loop from its loop state number 6. -/
theorem c9chain_6 :
    Calibration.calibLoop Traces.c9cfg Traces.meas9 (Traces.c9states.getD 6 default)
      (some (Traces.c9ress.getD 5 default)) 94 = some (Traces.c9ress.getD 99 default) :=
  (Calibration.calibLoop_advance Traces.c9cfg Traces.meas9 (Traces.c9states.getD 6 default)
    (some (Traces.c9ress.getD 5 default)) 93 (by decide) (by decide)).trans c9chain_7

/-- Tail of the `run9` loop from its loop state number 5. -/
theorem c9chain_5 :
    Calibration.calibLoop Traces.c9cfg Traces.meas9 (Traces.c9states.getD 5 default)
      (some (Traces.c9ress.getD 4 default)) 95 = some (Traces.c9ress.getD 99 default) :=
  (Calibration.calibLoop_advance Traces.c9cfg Traces.meas9 (Traces.c9states.getD 5 default)
    (some (Traces.c9ress.getD 4 default)) 94 (by decide) (by decide)).trans c9chain_6

/-- Tail of the `run9` loop from its loop state number 4. -/
theorem c9chain_4 :
    Calibration.calibLoop Traces.c9cfg Traces.meas9 (Traces.c9states.getD 4 default)
      (some (Traces.c9ress.getD 3 default)) 96 = some (Traces.c9ress.getD 99 default) :=
  (Calibration.calibLoop_advance Traces.c9cfg Traces.meas9 (Traces.c9states.getD 4 default)
    (some (Traces.c9ress.getD 3 default)) 95 (by decide) (by decide)).trans c9chain_5

/-- Tail of the `run9` loop from its loop state number 3. -/
theorem c9chain_3 :
    Calibration.calibLoop Traces.c9cfg Traces.meas9 (Traces.c9states.getD 3 default)
      (some (Traces.c9ress.getD 2 default)) 97 = some (Traces.c9ress.getD 99 default) :=
  (Calibration.calibLoop_advance Traces.c9cfg Traces.meas9 (Traces.c9states.getD 3 default)
    (some (Traces.c9ress.getD 2 default)) 96 (by decide) (by decide)).trans c9chain_4

/-- Tail of the `run9` loop from its loop state number 2. -/
theorem c9chain_2 :
    Calibration.calibLoop Traces.c9cfg Traces.meas9 (Traces.c9states.getD 2 default)
      (some (Traces.c9ress.getD 1 default)) 98 = some (Traces.c9ress.getD 99 default) :=
  (Calibration.calibLoop_advance Traces.c9cfg Traces.meas9 (Traces.c9states.getD 2 default)
    (some (Traces.c9ress.getD 1 default)) 97 (by decide) (by decide)).trans c9chain_3

/-- Tail of the `run9` loop from its loop state number 1. -/
theorem c9chain_1 :
    Calibration.calibLoop Traces.c9cfg Traces.meas9 (Traces.c9states.getD 1 default)
      (some (Traces.c9ress.getD 0 default)) 99 = some (Traces.c9ress.getD 99 default) :=
  (Calibration.calibLoop_advance Traces.c9cfg Traces.meas9 (Traces.c9states.getD 1 default)
    (some (Traces.c9ress.getD 0 default)) 98 (by decide) (by decide)).trans c9chain_2

/-- Tail of the `run9` loop from its loop state number 0. -/
theorem c9chain_0 :
    Calibration.calibLoop Traces.c9cfg Traces.meas9 (Traces.c9states.getD 0 default)
      none 100 = some (Traces.c9ress.getD 99 default) :=
  (Calibration.calibLoop_advance Traces.c9cfg Traces.meas9 (Traces.c9states.getD 0 default)
    none 99 (by decide) (by decide)).trans c9chain_1


/-- C9 counterexample: the concrete calibration run `Traces.run9` (target
0, tolerance 1, both parameter ranges [-100, 1], measurements `meas9`)
executes exactly 100 iterations, walking through the loop states
`Traces.c9states`.  At iteration 100 the distance to target worsens from
101 to 500, yet both step sizes are left unchanged: the growth multiplier
`1.1 - 0.1*100/100` equals exactly 1, refuting "multiplied by a factor
strictly above 1". -/
theorem c9_counterexample_growth_factor_one_at_iteration_100 :
    ((List.range 100).all fun k =>
      Calibration.loopGuard Traces.c9cfg (Traces.c9states.getD k default)) = true ∧
    ((List.range 100).all fun k =>
      Calibration.calibIterate Traces.c9cfg (Traces.meas9 (k + 1))
          (Traces.c9states.getD k default)
        == (Traces.c9states.getD (k + 1) default,
            Traces.c9ress.getD k default)) = true ∧
    Traces.run9 = some (Traces.c9ress.getD 99 default) ∧
    (Traces.c9states.getD 99 default).dist = some 101 ∧
    (Traces.c9states.getD 99 default).counter = 99 ∧
    |Traces.meas9 100 - Traces.c9cfg.target_travel_time| = 500 ∧
    (Calibration.calibIterate Traces.c9cfg (Traces.meas9 100)
        (Traces.c9states.getD 99 default)).1.lagStep
      = (Traces.c9states.getD 99 default).lagStep ∧
    (Calibration.calibIterate Traces.c9cfg (Traces.meas9 100)
        (Traces.c9states.getD 99 default)).1.entryStep
      = (Traces.c9states.getD 99 default).entryStep ∧
    Calibration.growFactor 100 = 1 :=
  ⟨by decide, by decide, c9chain_0, by decide, by decide, by decide,
   by decide, by decide, by decide⟩

/-- C10: determinism under fixed randomness — two engines constructed with
identical configuration and driven by the same random draw and lane
permutation script produce bit-identical road snapshots after every number
of steps.  All engine state lives in the `NagelSchreckenbergMultiple`
structure and all randomness enters through the explicit script, so the
run is a pure function of (configuration, script). -/
theorem c10_bit_identical_snapshots (road_length lanes v_max : Nat)
    (lag rate : ℚ) (multi : Bool) (e1 e2 : NagelSchreckenbergMultiple)
    (script : List (List ℚ × List Nat)) (k : Nat)
    (h1 : e1 = init road_length lanes v_max lag rate multi)
    (h2 : e2 = init road_length lanes v_max lag rate multi) :
    get_road (run e1 (script.take k)) = get_road (run e2 (script.take k)) := by
  subst h1
  subst h2
  rfl

/-- Witness for C10 at a concrete configuration and script. -/
theorem c10_witness :
    get_road (run (init 10 2 5 (1/2) 1 true) ([([0], [0])].take 1)) =
      get_road (run (init 10 2 5 (1/2) 1 true) ([([0], [0])].take 1)) :=
  c10_bit_identical_snapshots 10 2 5 (1/2) 1 true _ _ [([0], [0])] 1 rfl rfl

/-- C7 amended: with multi-lane rules on, a vehicle that has a lane to its
right (`lane + 1 <= lanes - 1`) and did not switch in the overtake step
(its overtake result is `(v, lane)`) merges right exactly when the right
lane is unoccupied across the window from `pos - v_max` (the code scans up
to `v_max` cells BEHIND the vehicle as well) through
`min (pos + v) (road_length - 1)`; no speed-gain condition is required,
and the merged vehicle keeps its gap-limited current speed `v`. -/
theorem c7_amended_merge_requires_backward_window_too
    (road : List (List Int)) (roadLen lanes v_max lane pos v : Nat)
    (hr : lane + 1 ≤ lanes - 1) :
    ((mergeStage road roadLen lanes v_max true lane pos (v, lane)).2 = lane + 1 ↔
      allEmpty road (lane + 1) (pos - v_max) (min (pos + v) (roadLen - 1)) = true) ∧
    (mergeStage road roadLen lanes v_max true lane pos (v, lane)).1 = v := by
  have hmin : min (lane + 1) (lanes - 1) = lane + 1 := Nat.min_eq_left hr
  by_cases h : allEmpty road (lane + 1) (pos - v_max) (min (pos + v) (roadLen - 1)) = true
  · simp [mergeStage, hmin, h, Nat.ne_of_lt (Nat.lt_succ_self lane)]
  · simp [mergeStage, hmin, h, Nat.ne_of_lt (Nat.lt_succ_self lane)]

/-- Witness for C7 amended: the reachable state `Traces.e3c7`, car 1 at
cell (0,4) with gap-limited speed 5. -/
theorem c7_amended_witness :
    ((mergeStage Traces.e3c7.road 10 2 5 true 0 4 (5, 0)).2 = 1 ↔
      allEmpty Traces.e3c7.road 1 0 (min 9 9) = true) ∧
    (mergeStage Traces.e3c7.road 10 2 5 true 0 4 (5, 0)).1 = 5 :=
  c7_amended_merge_requires_backward_window_too Traces.e3c7.road 10 2 5 0 4 5
    (by decide)

/-- C9 amended: in every calibration iteration (counter value `s.counter + 1`),
both step sizes are multiplied by `shrinkFactor = 0.9 - 0.5*counter/100` when
the distance to target did not worsen — a factor strictly below 1 that
strictly decreases as the iteration count grows — and by
`growFactor = 1.1 - 0.1*counter/100` when it worsened — strictly above 1 at
every iteration before the 100th, exactly 1 at iteration 100; in both cases
the result is floored at 1% of the parameter's configured range. -/
theorem c9_amended_step_size_update (c : Calibration) (tt : ℚ)
    (s : IterState) (dOld : ℚ) (hd : s.dist = some dOld) :
    ((calibIterate c tt s).1.lagStep =
        max (s.lagStep *
          (if |tt - c.target_travel_time| ≤ dOld then shrinkFactor (s.counter + 1)
           else growFactor (s.counter + 1)))
          ((c.lag_parameter_max - c.lag_parameter_min) / 100) ∧
      (calibIterate c tt s).1.entryStep =
        max (s.entryStep *
          (if |tt - c.target_travel_time| ≤ dOld then shrinkFactor (s.counter + 1)
           else growFactor (s.counter + 1)))
          ((c.entry_rate_max - c.entry_rate_min) / 100)) ∧
    ((c.lag_parameter_max - c.lag_parameter_min) / 100 ≤
      (calibIterate c tt s).1.lagStep) ∧
    ((c.entry_rate_max - c.entry_rate_min) / 100 ≤
      (calibIterate c tt s).1.entryStep) ∧
    (∀ n : Nat, shrinkFactor n < 1) ∧
    (∀ m n : Nat, m < n → shrinkFactor n < shrinkFactor m) ∧
    (∀ n : Nat, n < 100 → 1 < growFactor n) ∧
    growFactor 100 = 1 := by
  constructor
  · by_cases hle : |tt - c.target_travel_time| ≤ dOld
    · simp [calibIterate, hd, hle]
    · simp [calibIterate, hd, hle]
  refine ⟨?_, ?_, ?_, ?_, ?_, ?_⟩
  · simp [calibIterate]
  · simp [calibIterate]
  · intro n
    have h : (0 : ℚ) ≤ (n : ℚ) / 200 := by positivity
    unfold shrinkFactor
    linarith
  · intro m n hmn
    have h : (m : ℚ) < (n : ℚ) := by exact_mod_cast hmn
    unfold shrinkFactor
    linarith
  · intro n hn
    have h : (n : ℚ) < 100 := by exact_mod_cast hn
    unfold growFactor
    linarith
  · norm_num [growFactor]

/-- Witness for C9 amended: iteration 100 of the run `Traces.run9`. -/
theorem c9_amended_witness :
    (calibIterate Traces.c9cfg 500 (Traces.c9states.getD 99 default)).1.lagStep =
      max ((Traces.c9states.getD 99 default).lagStep *
        (if |(500 : ℚ) - Traces.c9cfg.target_travel_time| ≤ 101 then
          shrinkFactor ((Traces.c9states.getD 99 default).counter + 1)
         else growFactor ((Traces.c9states.getD 99 default).counter + 1)))
        ((Traces.c9cfg.lag_parameter_max - Traces.c9cfg.lag_parameter_min) / 100) :=
  (c9_amended_step_size_update Traces.c9cfg 500 (Traces.c9states.getD 99 default)
    101 (by decide)).1.1

/-- Preservation of a predicate along a left fold. -/
theorem foldl_preserve {α β : Type _} (P : β → Prop) (f : β → α → β) :
    ∀ (l : List α) (b : β), (∀ a ∈ l, ∀ s, P s → P (f s a)) → P b →
      P (l.foldl f b)
  | [], _, _, hb => hb
  | a :: l, b, h, hb =>
    foldl_preserve P f l (f b a)
      (fun x hx s hs => h x (List.mem_cons_of_mem a hx) s hs)
      (h a (List.mem_cons_self a l) b hb)

/-- `processCar` only appends ledger entries of the right shape: the
identifier's recorded duration is the current step minus its start time. -/
theorem processCar_ledger (e : NagelSchreckenbergMultiple)
    (s : NagelSchreckenbergMultiple.StepState) (lane pos : Nat) :
    ∀ x ∈ (NagelSchreckenbergMultiple.processCar e s lane pos).ledger,
      x ∈ s.ledger ∨ ∃ t, lookupNat e.start_times x.1 = some t ∧
        x.2 = e.current_step - t := by
  intro x hx
  unfold NagelSchreckenbergMultiple.processCar at hx
  dsimp only at hx
  split at hx
  · exact Or.inl hx
  · split at hx
    · next t heq =>
      rcases List.mem_append.1 hx with h | h
      · exact Or.inl h
      · rcases List.mem_singleton.1 h with rfl
        exact Or.inr ⟨t, heq, rfl⟩
    · exact Or.inl hx

/-- Ledger shape carried through the whole per-car fold of `step`. -/
theorem carFold_ledger (e : NagelSchreckenbergMultiple)
    (cars : List (Nat × Nat)) (s0 : NagelSchreckenbergMultiple.StepState) :
    ∀ x ∈ (cars.foldl
        (fun s lp => NagelSchreckenbergMultiple.processCar e s lp.1 lp.2)
        s0).ledger,
      x ∈ s0.ledger ∨ ∃ t, lookupNat e.start_times x.1 = some t ∧
        x.2 = e.current_step - t :=
  foldl_preserve
    (fun st => ∀ y ∈ st.ledger, y ∈ s0.ledger ∨
      ∃ t, lookupNat e.start_times y.1 = some t ∧ y.2 = e.current_step - t)
    _ cars s0
    (fun lp _ st hst y hy => by
      rcases processCar_ledger e st lp.1 lp.2 y hy with h | h
      · exact hst y h
      · exact Or.inr h)
    (fun y hy => Or.inl hy)

/-- A single `step` only appends ledger entries recording an exit at the
step being executed. -/
theorem step_ledger (e : NagelSchreckenbergMultiple) (draws : List ℚ)
    (perm : List Nat) :
    ∀ x ∈ (e.step draws perm).times_taken,
      x ∈ e.times_taken ∨ ∃ t, lookupNat e.start_times x.1 = some t ∧
        x.2 = e.current_step - t := by
  intro x hx
  exact carFold_ledger e (NagelSchreckenbergMultiple.carIndices e) _ x hx

/-- Unfolding `run` over a cons script. -/
theorem run_cons (e : NagelSchreckenbergMultiple)
    (sc : List ℚ × List Nat) (l : List (List ℚ × List Nat)) :
    NagelSchreckenbergMultiple.run e (sc :: l) =
      NagelSchreckenbergMultiple.run (e.step sc.1 sc.2) l := rfl

/-- The internal clock advances by exactly one per executed step. -/
theorem run_current_step (script : List (List ℚ × List Nat)) :
    ∀ e : NagelSchreckenbergMultiple,
      (NagelSchreckenbergMultiple.run e script).current_step =
        e.current_step + script.length := by
  induction script with
  | nil => intro e; rfl
  | cons sc rest ih =>
    intro e
    rw [run_cons, ih]
    show e.current_step + 1 + rest.length = e.current_step + (rest.length + 1)
    omega

/-- Every ledger entry present after a multi-step run either predates the
run or was recorded by the specific step `k` of the run that processed the
exit. -/
theorem run_ledger (script : List (List ℚ × List Nat)) :
    ∀ e : NagelSchreckenbergMultiple,
      ∀ x ∈ (NagelSchreckenbergMultiple.run e script).times_taken,
        x ∈ e.times_taken ∨ ∃ k, k < script.length ∧ ∃ t,
          lookupNat (NagelSchreckenbergMultiple.run e
            (script.take k)).start_times x.1 = some t ∧
          x.2 = (NagelSchreckenbergMultiple.run e
            (script.take k)).current_step - t := by
  induction script with
  | nil => intro e x hx; exact Or.inl hx
  | cons sc rest ih =>
    intro e x hx
    rw [run_cons] at hx
    rcases ih (e.step sc.1 sc.2) x hx with h | ⟨k, hk, t, hl, he⟩
    · rcases step_ledger e sc.1 sc.2 x h with h2 | ⟨t, hl, he⟩
      · exact Or.inl h2
      · exact Or.inr ⟨0, Nat.succ_pos _, t, hl, he⟩
    · refine Or.inr ⟨k + 1, Nat.succ_lt_succ hk, t, ?_, ?_⟩
      · rw [List.take_succ_cons, run_cons]; exact hl
      · rw [List.take_succ_cons, run_cons]; exact he

/-- C3 amended: `reset_statistics` clears the travel-time ledger without
touching road state, velocities or the clock; afterwards every entry that
appears in the ledger was recorded by a step executed at or after the
reset step T (the recorded duration is current_step - start_time at that
step, whose clock reads `T + k`).  The vehicle's ENTRY time may predate T:
`start_times` survives the reset, which is what the counterexample
exhibits. -/
theorem c3_amended_ledger_entries_recorded_after_reset
    (e : NagelSchreckenbergMultiple) (script : List (List ℚ × List Nat)) :
    (e.reset_stats.times_taken = [] ∧ e.reset_stats.road = e.road ∧
      e.reset_stats.velocities = e.velocities ∧
      e.reset_stats.current_step = e.current_step) ∧
    ∀ x ∈ (NagelSchreckenbergMultiple.run e.reset_stats script).times_taken,
      ∃ k, k < script.length ∧ ∃ t,
        lookupNat (NagelSchreckenbergMultiple.run e.reset_stats
          (script.take k)).start_times x.1 = some t ∧
        x.2 = (NagelSchreckenbergMultiple.run e.reset_stats
          (script.take k)).current_step - t ∧
        (NagelSchreckenbergMultiple.run e.reset_stats
          (script.take k)).current_step = e.current_step + k := by
  refine ⟨⟨rfl, rfl, rfl, rfl⟩, ?_⟩
  intro x hx
  rcases run_ledger script e.reset_stats x hx with h | ⟨k, hk, t, hl, he⟩
  · simp [NagelSchreckenbergMultiple.reset_stats] at h
  · refine ⟨k, hk, t, hl, he, ?_⟩
    rw [run_current_step]
    simp [NagelSchreckenbergMultiple.reset_stats, List.length_take]
    omega

/-- Witness for C3 amended: the counterexample run, where car 0 (entered
at step 0) exits during the first step after the reset at step 2. -/
theorem c3_amended_witness :
    ∃ k, k < 1 ∧ ∃ t,
      lookupNat (NagelSchreckenbergMultiple.run Traces.e2c3.reset_stats
        (([(([1/2] : List ℚ), ([] : List Nat))]).take k)).start_times 0 = some t ∧
      2 = (NagelSchreckenbergMultiple.run Traces.e2c3.reset_stats
        (([(([1/2] : List ℚ), ([] : List Nat))]).take k)).current_step - t ∧
      (NagelSchreckenbergMultiple.run Traces.e2c3.reset_stats
        (([(([1/2] : List ℚ), ([] : List Nat))]).take k)).current_step =
        Traces.e2c3.current_step + k :=
  (c3_amended_ledger_entries_recorded_after_reset Traces.e2c3
    [([1/2], [])]).2 (0, 2) (by decide)

/-- `freeRun` never exceeds its fuel, i.e. the gap-limited speed never
exceeds the speed the scan started from. -/
theorem freeRun_le (road : List (List Int)) (roadLen lane : Nat) :
    ∀ (fuel pos : Nat), freeRun road roadLen lane pos fuel ≤ fuel
  | 0, _ => Nat.le_refl 0
  | fuel + 1, pos => by
    unfold freeRun
    split
    · exact Nat.succ_le_succ (freeRun_le road roadLen lane fuel (pos + 1))
    · exact Nat.zero_le _

/-- The merge rule never changes the speed. -/
theorem mergeStage_fst (road : List (List Int))
    (roadLen lanes v_max : Nat) (multi : Bool) (lane pos : Nat)
    (ot : Nat × Nat) :
    (mergeStage road roadLen lanes v_max multi lane pos ot).1 = ot.1 := by
  unfold mergeStage
  dsimp only
  split
  · split <;> rfl
  · rfl

/-- The overtake rule keeps the speed at most the capped target speed. -/
theorem overtakeStage_fst_le (road : List (List Int))
    (roadLen v_max : Nat) (multi : Bool) (lane pos v_target v2 : Nat)
    (h2 : v2 ≤ v_target) :
    (overtakeStage road roadLen v_max multi lane pos v_target v2).1 ≤
      v_target := by
  unfold overtakeStage
  dsimp only
  split
  · split
    · split
      · exact freeRun_le road roadLen (lane - 1) v_target pos
      · exact h2
    · exact h2
  · exact h2

/-- Rules 1-4 never produce a speed above `v_max`. -/
theorem planCar_fst_le (road : List (List Int))
    (roadLen lanes v_max : Nat) (multi : Bool) (lane pos v0 : Nat) :
    (planCar road roadLen lanes v_max multi lane pos v0).1 ≤ v_max := by
  unfold planCar gapStage
  dsimp only
  rw [mergeStage_fst]
  exact le_trans
    (overtakeStage_fst_le road roadLen v_max multi lane pos _ _
      (freeRun_le road roadLen lane _ pos))
    (Nat.min_le_right _ _)

/-- The random slowdown never increases the speed. -/
theorem dawdle_fst_le (p : ℚ) (v : Nat) (draws : List ℚ) :
    (NagelSchreckenbergMultiple.dawdle p v draws).1 ≤ v := by
  unfold NagelSchreckenbergMultiple.dawdle
  split
  · dsimp only
    split
    · exact Nat.sub_le v 1
    · exact Nat.le_refl v
  · exact Nat.le_refl v

/-- `cellAt` after `setCell`: either the cell is untouched or it is the
written cell carrying the written value. -/
theorem cellAt_setCell_or (r : List (List Int)) (l q : Nat) (v : Int)
    (l2 p2 : Nat) :
    cellAt (setCell r l q v) l2 p2 = cellAt r l2 p2 ∨
      (l2 = l ∧ p2 = q ∧ cellAt (setCell r l q v) l2 p2 = v) := by
  unfold cellAt setCell
  by_cases hl : l2 = l
  · subst hl
    by_cases hlen : l2 < r.length
    · rw [List.getD_eq_getElem?_getD (r.set l2 _),
        List.getElem?_set_self hlen, Option.getD_some]
      by_cases hq : p2 = q
      · subst hq
        by_cases hqlen : p2 < (r.getD l2 []).length
        · right
          refine ⟨rfl, rfl, ?_⟩
          rw [List.getD_eq_getElem?_getD, List.getElem?_set_self hqlen,
            Option.getD_some]
        · left
          rw [List.set_eq_of_length_le (Nat.le_of_not_lt hqlen)]
      · left
        rw [List.getD_eq_getElem?_getD ((r.getD l2 []).set q v),
          List.getElem?_set_ne (fun h => hq h.symm),
          ← List.getD_eq_getElem?_getD]
    · left
      rw [List.set_eq_of_length_le (Nat.le_of_not_lt hlen)]
  · left
    rw [List.getD_eq_getElem?_getD (r.set l _),
      List.getElem?_set_ne (fun h => hl h.symm),
      ← List.getD_eq_getElem?_getD]

/-- Writing a whole row: any cell is untouched or comes from the new row. -/
theorem cellAt_set_row_or (r : List (List Int)) (i : Nat) (row : List Int)
    (l p : Nat) :
    cellAt (r.set i row) l p = cellAt r l p ∨
      cellAt (r.set i row) l p = row.getD p (-1) := by
  unfold cellAt
  by_cases hl : l = i
  · subst hl
    by_cases hlen : l < r.length
    · right
      rw [List.getD_eq_getElem?_getD (r.set l row),
        List.getElem?_set_self hlen, Option.getD_some]
    · left
      rw [List.set_eq_of_length_le (Nat.le_of_not_lt hlen)]
  · left
    rw [List.getD_eq_getElem?_getD (r.set i row),
      List.getElem?_set_ne (fun h => hl h.symm),
      ← List.getD_eq_getElem?_getD]

/-- Cells of a replicated row take the replicated value or the default. -/
theorem getD_replicate_or {α : Type _} (m p : Nat) (x d : α) :
    (List.replicate m x).getD p d = x ∨ (List.replicate m x).getD p d = d := by
  rw [List.getD_eq_getElem?_getD, List.getElem?_replicate]
  by_cases h : p < m
  · rw [if_pos h, Option.getD_some]; exact Or.inl rfl
  · rw [if_neg h, Option.getD_none]; exact Or.inr rfl

/-- Cells of a replicated empty road are all `-1`. -/
theorem cellAt_blank (n m l p : Nat) :
    cellAt (List.replicate n (List.replicate m (-1))) l p = -1 := by
  unfold cellAt
  rcases getD_replicate_or n l (List.replicate m (-1 : Int)) [] with h | h <;>
    rw [h]
  · rcases getD_replicate_or m p (-1 : Int) (-1) with h2 | h2 <;> rw [h2]
  · rfl

/-- After the lane-closure pass of `step`, no cell of the fresh next-state
road holds a vehicle identifier (cells are `-1` or `-2`). -/
theorem cellAt_closures_neg (e : NagelSchreckenbergMultiple) :
    ∀ l p, cellAt (NagelSchreckenbergMultiple.stepClosures e) l p < 0 := by
  unfold NagelSchreckenbergMultiple.stepClosures
  refine foldl_preserve (fun r => ∀ l p, cellAt r l p < 0) _
    e.closing_end_times _ (fun le _ r hr l p => ?_) (fun l p => ?_)
  · split
    · rcases cellAt_set_row_or r le.1 (List.replicate e.road_length (-2))
        l p with h | h
      · rw [h]; exact hr l p
      · rw [h]
        rcases getD_replicate_or e.road_length p (-2) (-1) with h2 | h2 <;>
          rw [h2] <;> decide
    · exact hr l p
  · rw [cellAt_blank]; decide

/-- Preservation of the speed bound and velocity coverage through the
per-car loop body. -/
theorem processCar_velOK (e : NagelSchreckenbergMultiple)
    (s : NagelSchreckenbergMultiple.StepState) (lane pos : Nat)
    (hb : ∀ kv ∈ s.newVel, kv.2 ≤ e.v_max)
    (hc : ∀ l p, 0 ≤ cellAt s.newRoad l p →
      ∃ w, ((cellAt s.newRoad l p).toNat, w) ∈ s.newVel) :
    (∀ kv ∈ (NagelSchreckenbergMultiple.processCar e s lane pos).newVel,
      kv.2 ≤ e.v_max) ∧
    (∀ l p, 0 ≤ cellAt
        (NagelSchreckenbergMultiple.processCar e s lane pos).newRoad l p →
      ∃ w, ((cellAt (NagelSchreckenbergMultiple.processCar e s lane
        pos).newRoad l p).toNat, w) ∈
        (NagelSchreckenbergMultiple.processCar e s lane pos).newVel) := by
  have hv : (NagelSchreckenbergMultiple.dawdle e.p
      (planCar e.road e.road_length e.lanes e.v_max e.multi_lane_rules
        lane pos (lookupD e.velocities (cellAt e.road lane pos).toNat 0)).1
      s.draws).1 ≤ e.v_max :=
    le_trans (dawdle_fst_le _ _ _) (planCar_fst_le _ _ _ _ _ _ _ _)
  unfold NagelSchreckenbergMultiple.processCar
  dsimp only
  split
  · constructor
    · intro kv hkv
      rcases List.mem_append.1 hkv with h | h
      · exact hb kv h
      · rcases List.mem_singleton.1 h with rfl
        exact hv
    · intro l p hcell
      rcases cellAt_setCell_or s.newRoad _ _ _ l p with h | ⟨_, _, h⟩
      · rw [h] at hcell ⊢
        rcases hc l p hcell with ⟨w, hw⟩
        exact ⟨w, List.mem_append_left _ hw⟩
      · rw [h]
        simp only [Int.toNat_ofNat]
        exact ⟨_, List.mem_append_right _ (List.mem_singleton.2 rfl)⟩
  · split
    · exact ⟨hb, hc⟩
    · exact ⟨hb, hc⟩

/-- Unfolding the admission loop over a cons permutation. -/
theorem placeCars_cons (v_max : Nat) (a : Nat) (l : List Nat)
    (road : List (List Int)) (vel : List (Nat × Nat)) (queue : List Nat) :
    NagelSchreckenbergMultiple.placeCars v_max (a :: l) road vel queue =
      (match queue with
       | [] => NagelSchreckenbergMultiple.placeCars v_max l road vel queue
       | cid :: rest =>
         if cellAt road a 0 == -1 then
           NagelSchreckenbergMultiple.placeCars v_max l
             (setCell road a 0 (Int.ofNat cid)) (vel ++ [(cid, v_max)]) rest
         else NagelSchreckenbergMultiple.placeCars v_max l road vel queue) := by
  cases queue with
  | nil => rfl
  | cons cid rest =>
    by_cases h : cellAt road a 0 == -1
    · simp only [NagelSchreckenbergMultiple.placeCars, List.foldl, h, if_true]
    · simp only [NagelSchreckenbergMultiple.placeCars, List.foldl, h,
        if_false, Bool.false_eq_true]

/-- Preservation of the speed bound and velocity coverage through the
admission loop (entrants get exactly `v_max`). -/
theorem placeCars_velOK (v_max : Nat) (perm : List Nat) :
    ∀ (road : List (List Int)) (vel : List (Nat × Nat)) (queue : List Nat),
      (∀ kv ∈ vel, kv.2 ≤ v_max) →
      (∀ l p, 0 ≤ cellAt road l p →
        ∃ w, ((cellAt road l p).toNat, w) ∈ vel) →
      (∀ kv ∈ (NagelSchreckenbergMultiple.placeCars v_max perm road vel
          queue).2.1, kv.2 ≤ v_max) ∧
      (∀ l p, 0 ≤ cellAt (NagelSchreckenbergMultiple.placeCars v_max perm
          road vel queue).1 l p →
        ∃ w, ((cellAt (NagelSchreckenbergMultiple.placeCars v_max perm road
          vel queue).1 l p).toNat, w) ∈
          (NagelSchreckenbergMultiple.placeCars v_max perm road vel
            queue).2.1) := by
  induction perm with
  | nil => exact fun road vel queue hb hc => ⟨hb, hc⟩
  | cons a l ih =>
    intro road vel queue hb hc
    rw [placeCars_cons]
    cases queue with
    | nil => exact ih road vel [] hb hc
    | cons cid rest =>
      dsimp only
      split
      · refine ih _ _ _ (fun kv hkv => ?_) (fun l2 p2 hcell => ?_)
        · rcases List.mem_append.1 hkv with h | h
          · exact hb kv h
          · rcases List.mem_singleton.1 h with rfl
            exact Nat.le_refl v_max
        · rcases cellAt_setCell_or road a 0 (Int.ofNat cid) l2 p2 with
            h | ⟨_, _, h⟩
          · rw [h] at hcell ⊢
            rcases hc l2 p2 hcell with ⟨w, hw⟩
            exact ⟨w, List.mem_append_left _ hw⟩
          · rw [h]
            exact ⟨v_max, List.mem_append_right _ (by simp)⟩
      · exact ih road vel (cid :: rest) hb hc

/-- Syntactic unfolding of the car-movement phase. -/
theorem stepCars_eq (e : NagelSchreckenbergMultiple) (draws : List ℚ) :
    NagelSchreckenbergMultiple.stepCars e draws =
      (NagelSchreckenbergMultiple.carIndices e).foldl
        (fun s lp => NagelSchreckenbergMultiple.processCar e s lp.1 lp.2)
        ⟨NagelSchreckenbergMultiple.stepClosures e, [], e.times_taken,
          draws⟩ := rfl

/-- Syntactic unfolding of the road produced by `step`. -/
theorem step_road_eq (e : NagelSchreckenbergMultiple) (draws : List ℚ)
    (perm : List Nat) :
    (e.step draws perm).road =
      (NagelSchreckenbergMultiple.placeCars e.v_max perm
        (NagelSchreckenbergMultiple.stepCars e draws).newRoad
        (NagelSchreckenbergMultiple.stepCars e draws).newVel
        (NagelSchreckenbergMultiple.stepEntry e
          (NagelSchreckenbergMultiple.stepCars e draws).draws).2.1).1 := rfl

/-- Syntactic unfolding of the velocity map produced by `step`. -/
theorem step_velocities_eq (e : NagelSchreckenbergMultiple)
    (draws : List ℚ) (perm : List Nat) :
    (e.step draws perm).velocities =
      (NagelSchreckenbergMultiple.placeCars e.v_max perm
        (NagelSchreckenbergMultiple.stepCars e draws).newRoad
        (NagelSchreckenbergMultiple.stepCars e draws).newVel
        (NagelSchreckenbergMultiple.stepEntry e
          (NagelSchreckenbergMultiple.stepCars e draws).draws).2.1).2.1 := rfl

/-- C8: after every step, every velocity entry is at most `v_max`
(acceleration caps at `v_max`, the gap and overtake scans only lower the
speed below the capped target, the dawdle decrements, entrants get exactly
`v_max`), and every identifier on the road grid has a velocity entry
satisfying the bound.  Speeds are naturals in the embedding: no source
operation can produce a negative speed (`gap - 1` has `gap >= 1`, the
dawdle is guarded by `speed > 0`), so `0 <= speed` holds by construction. -/
theorem c8_speed_bound (e : NagelSchreckenbergMultiple) (draws : List ℚ)
    (perm : List Nat) :
    (∀ kv ∈ (e.step draws perm).velocities, kv.2 ≤ e.v_max) ∧
    (∀ l p, 0 ≤ cellAt (e.step draws perm).road l p →
      ∃ w, ((cellAt (e.step draws perm).road l p).toNat, w) ∈
        (e.step draws perm).velocities ∧ w ≤ e.v_max) := by
  have hfold := foldl_preserve
    (fun st : NagelSchreckenbergMultiple.StepState =>
      (∀ kv ∈ st.newVel, kv.2 ≤ e.v_max) ∧
      (∀ l p, 0 ≤ cellAt st.newRoad l p →
        ∃ w, ((cellAt st.newRoad l p).toNat, w) ∈ st.newVel))
    (fun s lp => NagelSchreckenbergMultiple.processCar e s lp.1 lp.2)
    (NagelSchreckenbergMultiple.carIndices e)
    ⟨NagelSchreckenbergMultiple.stepClosures e, [], e.times_taken, draws⟩
    (fun lp _ st hst => processCar_velOK e st lp.1 lp.2 hst.1 hst.2)
    ⟨fun kv hkv => absurd hkv (List.not_mem_nil kv),
     fun l p hcell => absurd hcell (not_le.2 (cellAt_closures_neg e l p))⟩
  rw [← stepCars_eq] at hfold
  have hplace := placeCars_velOK e.v_max perm
    (NagelSchreckenbergMultiple.stepCars e draws).newRoad
    (NagelSchreckenbergMultiple.stepCars e draws).newVel
    (NagelSchreckenbergMultiple.stepEntry e
      (NagelSchreckenbergMultiple.stepCars e draws).draws).2.1
    hfold.1 hfold.2
  rw [step_velocities_eq, step_road_eq]
  exact ⟨hplace.1, fun l p hcell => by
    rcases hplace.2 l p hcell with ⟨w, hw⟩
    exact ⟨w, hw, hplace.1 _ hw⟩⟩

/-- Witness for C8: the engine state after the collision step of the C2
trace; the identifier at cell (1,5) has a bounded velocity entry. -/
theorem c8_witness :
    ∃ w, ((cellAt Traces.e3c2.road 1 5).toNat, w) ∈
      Traces.e3c2.velocities ∧ w ≤ 5 :=
  (c8_speed_bound (NagelSchreckenbergMultiple.set_parameters Traces.e2c2
    (1/2) 0) [9/10, 9/10, 9/10] []).2 1 5 (by decide)

/-- Extracting a single cell from a successful `allEmpty` scan. -/
theorem allEmpty_spec {road : List (List Int)} {lane lo hi p : Nat}
    (h : allEmpty road lane lo hi = true) (h1 : lo ≤ p) (h2 : p ≤ hi) :
    cellAt road lane p = -1 := by
  unfold allEmpty at h
  rw [List.all_eq_true] at h
  have hm : p - lo ∈ List.range (hi + 1 - lo) := List.mem_range.2 (by omega)
  have h3 := h _ hm
  rw [show lo + (p - lo) = p from by omega] at h3
  exact eq_of_beq h3

/-- `List.getD` on a replicated list, in range. -/
theorem getD_replicate_of_lt {α : Type _} (m p : Nat) (x d : α)
    (h : p < m) : (List.replicate m x).getD p d = x := by
  rw [List.getD_eq_getElem?_getD, List.getElem?_replicate, if_pos h,
    Option.getD_some]

/-- Reading the row that a whole-row write targeted. -/
theorem cellAt_set_row_self (r : List (List Int)) (i : Nat)
    (row : List Int) (p : Nat) (h : i < r.length) :
    cellAt (r.set i row) i p = row.getD p (-1) := by
  unfold cellAt
  rw [List.getD_eq_getElem?_getD (r.set i row), List.getElem?_set_self h,
    Option.getD_some]

/-- Elements of `carIndices` are in-range cells holding car identifiers. -/
theorem carIndices_mem (e : NagelSchreckenbergMultiple) (lp : Nat × Nat)
    (h : lp ∈ NagelSchreckenbergMultiple.carIndices e) :
    lp.1 < e.lanes ∧ lp.2 < e.road_length ∧
      0 ≤ cellAt e.road lp.1 lp.2 := by
  unfold NagelSchreckenbergMultiple.carIndices at h
  rcases List.mem_flatMap.1 h with ⟨l, hl, hq⟩
  rcases List.mem_filterMap.1 hq with ⟨q, hq2, hf⟩
  rw [List.mem_range] at hl
  rw [List.mem_range] at hq2
  split at hf
  · next hcell =>
    cases Option.some.inj hf
    exact ⟨hl, hq2, hcell⟩
  · exact absurd hf (by simp)

/-- The overtake rule only targets a lane whose cell at the car's own
position is empty (the backward scan includes that position). -/
theorem overtakeStage_snd (road : List (List Int)) (roadLen v_max : Nat)
    (multi : Bool) (lane pos v_target v2 : Nat) :
    (overtakeStage road roadLen v_max multi lane pos v_target v2).2 =
      lane ∨
    cellAt road
      (overtakeStage road roadLen v_max multi lane pos v_target v2).2
      pos = -1 := by
  unfold overtakeStage
  dsimp only
  split
  · split
    · next hclear =>
      split
      · exact Or.inr
          (allEmpty_spec hclear (Nat.sub_le pos v_max) (Nat.le_refl pos))
      · exact Or.inl rfl
    · exact Or.inl rfl
  · exact Or.inl rfl

/-- Rules 1-4 only move a car into a lane whose cell at the car's own
position is empty (both the overtake and the merge scans include it). -/
theorem planCar_snd_empty (road : List (List Int))
    (roadLen lanes v_max : Nat) (multi : Bool) (lane pos v0 : Nat)
    (hpos : pos < roadLen) :
    (planCar road roadLen lanes v_max multi lane pos v0).2 = lane ∨
    cellAt road (planCar road roadLen lanes v_max multi lane pos v0).2
      pos = -1 := by
  unfold planCar mergeStage
  dsimp only
  split
  · split
    · next hclear =>
      refine Or.inr (allEmpty_spec hclear (Nat.sub_le pos v_max) ?_)
      exact Nat.le_min.2 ⟨Nat.le_add_right _ _, by omega⟩
    · exact overtakeStage_snd road roadLen v_max multi lane pos _ _
  · exact overtakeStage_snd road roadLen v_max multi lane pos _ _

/-- When a lane is marked closed past the current step, the closure pass
of `step` forces its whole row to `-2`. -/
theorem stepClosures_closed (e : NagelSchreckenbergMultiple) (L : Nat)
    (hL : L < e.lanes)
    (hcl : ∃ le ∈ e.closing_end_times, le.1 = L ∧ e.current_step < le.2) :
    ∀ p, p < e.road_length →
      cellAt (NagelSchreckenbergMultiple.stepClosures e) L p = -2 := by
  rcases hcl with ⟨le, hmem, hfst, hlt⟩
  rcases List.append_of_mem hmem with ⟨s, t, hsplit⟩
  unfold NagelSchreckenbergMultiple.stepClosures
  rw [hsplit, List.foldl_append, List.foldl_cons, if_pos hlt, hfst]
  have hlen : (s.foldl
      (fun r le => if e.current_step < le.2 then
        r.set le.1 (List.replicate e.road_length (-2)) else r)
      (List.replicate e.lanes (List.replicate e.road_length (-1)))).length
      = e.lanes :=
    foldl_preserve (fun r : List (List Int) => r.length = e.lanes)
      (fun r le => if e.current_step < le.2 then
        r.set le.1 (List.replicate e.road_length (-2)) else r) s
      (List.replicate e.lanes (List.replicate e.road_length (-1)))
      (fun a _ r hr => by
        dsimp only
        split
        · rw [List.length_set]; exact hr
        · exact hr)
      (List.length_replicate _ _)
  refine foldl_preserve
    (fun r => ∀ p, p < e.road_length → cellAt r L p = -2) _ t _
    (fun a _ r hr p hp => ?_) (fun p hp => ?_)
  · dsimp only
    split
    · rcases cellAt_set_row_or r a.1 (List.replicate e.road_length (-2))
        L p with h | h
      · rw [h]; exact hr p hp
      · rw [h]; exact getD_replicate_of_lt _ _ _ _ hp
    · exact hr p hp
  · rw [cellAt_set_row_self _ _ _ _ (by rw [hlen]; exact hL)]
    exact getD_replicate_of_lt _ _ _ _ hp

/-- The per-car body never writes into a lane whose row is entirely
closed in the previous road: a car cannot start there, and neither the
overtake nor the merge scan can succeed towards it. -/
theorem processCar_keeps_closed (e : NagelSchreckenbergMultiple) (L : Nat)
    (hrow : ∀ p, p < e.road_length → cellAt e.road L p = -2)
    (s : NagelSchreckenbergMultiple.StepState) (lane pos : Nat)
    (hpos : pos < e.road_length) (hcar : 0 ≤ cellAt e.road lane pos)
    (hs : ∀ p, p < e.road_length → cellAt s.newRoad L p = -2) :
    ∀ p, p < e.road_length →
      cellAt (NagelSchreckenbergMultiple.processCar e s lane pos).newRoad
        L p = -2 := by
  intro p hp
  have hne : (planCar e.road e.road_length e.lanes e.v_max
      e.multi_lane_rules lane pos
      (lookupD e.velocities (cellAt e.road lane pos).toNat 0)).2 ≠ L := by
    rcases planCar_snd_empty e.road e.road_length e.lanes e.v_max
      e.multi_lane_rules lane pos
      (lookupD e.velocities (cellAt e.road lane pos).toNat 0) hpos with
      h | h
    · rw [h]
      intro hEq
      rw [hEq] at hcar
      rw [hrow pos hpos] at hcar
      exact absurd hcar (by decide)
    · intro hEq
      rw [hEq] at h
      rw [hrow pos hpos] at h
      exact absurd h (by decide)
  unfold NagelSchreckenbergMultiple.processCar
  dsimp only
  split
  · rcases cellAt_setCell_or s.newRoad
      (planCar e.road e.road_length e.lanes e.v_max e.multi_lane_rules
        lane pos (lookupD e.velocities (cellAt e.road lane pos).toNat 0)).2
      (pos + (NagelSchreckenbergMultiple.dawdle e.p
        (planCar e.road e.road_length e.lanes e.v_max e.multi_lane_rules
          lane pos
          (lookupD e.velocities (cellAt e.road lane pos).toNat 0)).1
        s.draws).1)
      (Int.ofNat (cellAt e.road lane pos).toNat) L p with h | ⟨hL2, _, _⟩
    · exact h.trans (hs p hp)
    · exact absurd hL2.symm hne
  · split
    · exact hs p hp
    · exact hs p hp

/-- The admission loop never places a car into a lane whose row is
entirely closed: the entry cell is `-2`, not empty. -/
theorem placeCars_keeps_closed (rl v_max L : Nat) (perm : List Nat) :
    ∀ (road : List (List Int)) (vel : List (Nat × Nat)) (queue : List Nat),
      (∀ p, p < rl → cellAt road L p = -2) →
      ∀ p, p < rl →
        cellAt (NagelSchreckenbergMultiple.placeCars v_max perm road vel
          queue).1 L p = -2 := by
  induction perm with
  | nil => exact fun road vel queue h p hp => h p hp
  | cons a l ih =>
    intro road vel queue h p hp
    rw [placeCars_cons]
    cases queue with
    | nil => exact ih road vel [] h p hp
    | cons cid rest =>
      dsimp only
      split
      · next hcond =>
        refine ih _ _ _ (fun p2 hp2 => ?_) p hp
        rcases cellAt_setCell_or road a 0 (Int.ofNat cid) L p2 with
          h2 | ⟨hL2, hp0, _⟩
        · exact h2.trans (h p2 hp2)
        · exfalso
          have h1 := eq_of_beq hcond
          rw [← hL2] at h1
          have h3 := h 0 (hp0 ▸ hp2)
          rw [h1] at h3
          exact absurd h3 (by decide)
      · exact ih road vel (cid :: rest) h p hp

/-- One `step` keeps a closed lane fully closed: the closure pass rewrites
the row, no car writes into it, and no entrant is admitted there. -/
theorem step_keeps_closed (e : NagelSchreckenbergMultiple) (L : Nat)
    (draws : List ℚ) (perm : List Nat) (hL : L < e.lanes)
    (hcl : ∃ le ∈ e.closing_end_times, le.1 = L ∧ e.current_step < le.2)
    (hrow : ∀ p, p < e.road_length → cellAt e.road L p = -2) :
    ∀ p, p < e.road_length →
      cellAt (e.step draws perm).road L p = -2 := by
  have hfold := foldl_preserve
    (fun st : NagelSchreckenbergMultiple.StepState =>
      ∀ p, p < e.road_length → cellAt st.newRoad L p = -2)
    (fun s lp => NagelSchreckenbergMultiple.processCar e s lp.1 lp.2)
    (NagelSchreckenbergMultiple.carIndices e)
    ⟨NagelSchreckenbergMultiple.stepClosures e, [], e.times_taken, draws⟩
    (fun lp hmem st hst => by
      rcases carIndices_mem e lp hmem with ⟨_, hpos, hcar⟩
      exact processCar_keeps_closed e L hrow st lp.1 lp.2 hpos hcar hst)
    (stepClosures_closed e L hL hcl)
  rw [← stepCars_eq] at hfold
  intro p hp
  rw [step_road_eq]
  exact placeCars_keeps_closed e.road_length e.v_max L perm _ _ _ hfold p hp

/-- A closed lane stays fully closed through every step of a run whose
length stays within the closure window. -/
theorem run_keeps_closed (L : Nat) :
    ∀ (script : List (List ℚ × List Nat)) (e : NagelSchreckenbergMultiple),
      L < e.lanes →
      (∃ le ∈ e.closing_end_times, le.1 = L ∧
        e.current_step + script.length ≤ le.2) →
      (∀ p, p < e.road_length → cellAt e.road L p = -2) →
      ∀ k, k ≤ script.length → ∀ p, p < e.road_length →
        cellAt (NagelSchreckenbergMultiple.run e (script.take k)).road
          L p = -2 := by
  intro script
  induction script with
  | nil =>
    intro e _ _ hrow k hk p hp
    rw [Nat.le_zero.1 hk]
    exact hrow p hp
  | cons sc rest ih =>
    intro e hL hcl hrow k hk p hp
    cases k with
    | zero => exact hrow p hp
    | succ k2 =>
      rw [List.take_succ_cons, run_cons]
      rcases hcl with ⟨le, hmem, hfst, hle⟩
      refine ih (e.step sc.1 sc.2) hL ⟨le, hmem, hfst, ?_⟩ ?_ k2
        (Nat.succ_le_succ_iff.1 hk) p hp
      · show e.current_step + 1 + rest.length ≤ le.2
        simp only [List.length_cons] at hle
        omega
      · exact step_keeps_closed e L sc.1 sc.2 hL
          ⟨le, hmem, hfst, by simp only [List.length_cons] at hle; omega⟩
          hrow

/-- `close_lane` immediately rewrites the whole lane to the closed
marker. -/
theorem close_lane_road (e : NagelSchreckenbergMultiple) (L D : Nat)
    (h : L < e.road.length) :
    ∀ p, p < e.road_length →
      cellAt (NagelSchreckenbergMultiple.close_lane e L D).road L p
        = -2 := by
  intro p hp
  show cellAt (e.road.set L (List.replicate e.road_length (-2))) L p = -2
  rw [cellAt_set_row_self _ _ _ _ h]
  exact getD_replicate_of_lt _ _ _ _ hp

/-- `close_lane` records an end time of `current_step + duration` for the
closed lane. -/
theorem close_lane_mem (e : NagelSchreckenbergMultiple) (L D : Nat) :
    ∃ le ∈ (NagelSchreckenbergMultiple.close_lane e L D).closing_end_times,
      le.1 = L ∧ le.2 = e.current_step + D := by
  show ∃ le ∈ NagelSchreckenbergMultiple.upsert e.closing_end_times L
    (e.current_step + D), le.1 = L ∧ le.2 = e.current_step + D
  unfold NagelSchreckenbergMultiple.upsert
  split
  · next hany =>
    rcases List.any_eq_true.1 hany with ⟨kv, hkv, hbeq⟩
    refine ⟨(L, e.current_step + D), ?_, rfl, rfl⟩
    have h4 := List.mem_map_of_mem
      (fun kv => if kv.1 == L then (L, e.current_step + D) else kv) hkv
    dsimp only at h4
    rw [if_pos hbeq] at h4
    exact h4
  · exact ⟨(L, e.current_step + D),
      List.mem_append_right _ (List.mem_singleton.2 rfl), rfl, rfl⟩

/-- C4: closing lane L for duration D at step T immediately discards the
vehicles on L (the row becomes `-2`; the travel-time ledger is untouched,
so the discarded vehicles are never recorded as completed), and for every
prefix of a subsequent run of at most D steps, no vehicle occupies any
cell of lane L: every step within the window re-forces the row to `-2`,
and since the previous road's row is never the empty marker, neither a
lane change nor an admission at the entry cell can target L. -/
theorem c4_closure_enforcement (e : NagelSchreckenbergMultiple) (L D : Nat)
    (script : List (List ℚ × List Nat)) (hL : L < e.lanes)
    (hlen : e.road.length = e.lanes) (hD : script.length ≤ D) :
    (NagelSchreckenbergMultiple.close_lane e L D).times_taken =
      e.times_taken ∧
    ∀ k, k ≤ script.length → ∀ p, p < e.road_length →
      cellAt (NagelSchreckenbergMultiple.run
        (NagelSchreckenbergMultiple.close_lane e L D)
        (script.take k)).road L p = -2 := by
  refine ⟨rfl, ?_⟩
  refine run_keeps_closed L script
    (NagelSchreckenbergMultiple.close_lane e L D) hL ?_ ?_
  · rcases close_lane_mem e L D with ⟨le, hmem, h1, h2⟩
    refine ⟨le, hmem, h1, ?_⟩
    show e.current_step + script.length ≤ le.2
    rw [h2]
    omega
  · exact close_lane_road e L D (by rw [hlen]; exact hL)

/-- Witness for C4: closing lane 1 of the reachable 3-lane state
`Traces.e2c2` for 2 steps; after one step of the closure window the lane's
entry cell is still the closed marker, and the ledger was not extended by
the closure. -/
theorem c4_witness :
    (NagelSchreckenbergMultiple.close_lane Traces.e2c2 1 2).times_taken =
      Traces.e2c2.times_taken ∧
    cellAt (NagelSchreckenbergMultiple.run
      (NagelSchreckenbergMultiple.close_lane Traces.e2c2 1 2)
      (([(([9/10, 9/10, 9/10] : List ℚ), ([] : List Nat)),
         (([9/10, 9/10] : List ℚ), ([] : List Nat))]).take 1)).road 1 0
      = -2 :=
  ⟨(c4_closure_enforcement Traces.e2c2 1 2
      [([9/10, 9/10, 9/10], []), ([9/10, 9/10], [])]
      (by decide) (by decide) (by decide)).1,
   (c4_closure_enforcement Traces.e2c2 1 2
      [([9/10, 9/10, 9/10], []), ([9/10, 9/10], [])]
      (by decide) (by decide) (by decide)).2 1 (by decide) 0 (by decide)⟩

/-- Unfolding one iteration of the `calibrate` loop. -/
theorem calibLoop_succ (c : Calibration) (meas : Nat → ℚ)
    (s : Calibration.IterState) (res : Option Calibration.CalibRes)
    (fuel : Nat) :
    Calibration.calibLoop c meas s res (fuel + 1) =
      if Calibration.loopGuard c s then
        (if (Calibration.calibIterate c (meas (s.counter + 1)) s).2.bothEdged
         then some (Calibration.calibIterate c (meas (s.counter + 1)) s).2
         else Calibration.calibLoop c meas
           (Calibration.calibIterate c (meas (s.counter + 1)) s).1
           (some (Calibration.calibIterate c (meas (s.counter + 1)) s).2)
           fuel)
      else res := rfl

/-- The result record of an iteration carries the incremented counter. -/
theorem calibIterate_res_counter (c : Calibration) (tt : ℚ)
    (s : Calibration.IterState) :
    (Calibration.calibIterate c tt s).2.counter = s.counter + 1 := rfl

/-- The result record of an iteration carries the measured travel time. -/
theorem calibIterate_res_tt (c : Calibration) (tt : ℚ)
    (s : Calibration.IterState) :
    (Calibration.calibIterate c tt s).2.result_travel_time = tt := rfl

/-- The result record's distance is the absolute deviation from target. -/
theorem calibIterate_res_dist (c : Calibration) (tt : ℚ)
    (s : Calibration.IterState) :
    (Calibration.calibIterate c tt s).2.dist =
      |tt - c.target_travel_time| := rfl

/-- The next loop state carries the incremented counter. -/
theorem calibIterate_state_counter (c : Calibration) (tt : ℚ)
    (s : Calibration.IterState) :
    (Calibration.calibIterate c tt s).1.counter = s.counter + 1 := rfl

/-- The next loop state stores exactly the recorded distance. -/
theorem calibIterate_dist_link (c : Calibration) (tt : ℚ)
    (s : Calibration.IterState) :
    (Calibration.calibIterate c tt s).1.dist =
      some ((Calibration.calibIterate c tt s).2.dist) := rfl

/-- A true loop guard means the counter is below the hard ceiling. -/
theorem loopGuard_counter {c : Calibration} {s : Calibration.IterState}
    (h : Calibration.loopGuard c s = true) : s.counter < 100 := by
  unfold Calibration.loopGuard at h
  rw [Bool.and_eq_true] at h
  exact of_decide_eq_true h.2

/-- Main induction for C5: from any loop state with enough fuel to reach
the ceiling, the loop returns a result record of the final executed
iteration, within the ceiling, and only stops on convergence, on the
ceiling, or on the both-edged break. -/
theorem calibLoop_spec (c : Calibration) (meas : Nat → ℚ) :
    ∀ (fuel : Nat) (s : Calibration.IterState)
      (res : Option Calibration.CalibRes),
      100 ≤ s.counter + fuel → s.counter ≤ 100 →
      (match res with
       | none => s.counter = 0 ∧ s.dist = none
       | some r => r.counter = s.counter ∧ s.dist = some r.dist ∧
           r.bothEdged = false ∧ 1 ≤ r.counter ∧
           r.dist = |r.result_travel_time - c.target_travel_time| ∧
           r.result_travel_time = meas r.counter) →
      ∃ r, Calibration.calibLoop c meas s res fuel = some r ∧
        1 ≤ r.counter ∧ r.counter ≤ 100 ∧
        (r.dist ≤ c.convergence_range ∨ r.counter = 100 ∨
          r.bothEdged = true) ∧
        r.dist = |r.result_travel_time - c.target_travel_time| ∧
        r.result_travel_time = meas r.counter := by
  intro fuel
  induction fuel with
  | zero =>
    intro s res h100 hle hinv
    match res, hinv with
    | none, ⟨h0, _⟩ => omega
    | some r, ⟨hr1, _, _, hr4, hr5, hr6⟩ =>
      exact ⟨r, rfl, hr4, by omega, Or.inr (Or.inl (by omega)), hr5, hr6⟩
  | succ fuel ih =>
    intro s res h100 hle hinv
    rw [calibLoop_succ]
    by_cases hg : Calibration.loopGuard c s = true
    · rw [if_pos hg]
      by_cases hbe :
          (Calibration.calibIterate c (meas (s.counter + 1)) s).2.bothEdged
          = true
      · rw [if_pos hbe]
        refine ⟨(Calibration.calibIterate c (meas (s.counter + 1)) s).2,
          rfl, ?_, ?_, Or.inr (Or.inr hbe), ?_, ?_⟩
        · rw [calibIterate_res_counter]; omega
        · rw [calibIterate_res_counter]
          exact loopGuard_counter hg
        · rw [calibIterate_res_dist, calibIterate_res_tt]
        · rw [calibIterate_res_tt, calibIterate_res_counter]
      · rw [if_neg hbe]
        refine ih (Calibration.calibIterate c (meas (s.counter + 1)) s).1
          (some (Calibration.calibIterate c (meas (s.counter + 1)) s).2)
          ?_ ?_ ?_
        · rw [calibIterate_state_counter]; omega
        · rw [calibIterate_state_counter]
          exact loopGuard_counter hg
        · refine ⟨?_, calibIterate_dist_link c _ s, ?_, ?_, ?_, ?_⟩
          · rw [calibIterate_res_counter, calibIterate_state_counter]
          · exact Bool.not_eq_true _ ▸ hbe
          · rw [calibIterate_res_counter]; omega
          · rw [calibIterate_res_dist, calibIterate_res_tt]
          · rw [calibIterate_res_tt, calibIterate_res_counter]
    · rw [if_neg hg]
      match res, hinv with
      | none, ⟨h0, hdist⟩ =>
        exfalso
        apply hg
        unfold Calibration.loopGuard
        rw [hdist, h0]
        rfl
      | some r, ⟨hr1, hr2, _, hr4, hr5, hr6⟩ =>
        refine ⟨r, rfl, hr4, by omega, ?_, hr5, hr6⟩
        unfold Calibration.loopGuard at hg
        rw [hr2, Bool.and_eq_true] at hg
        by_cases hcnt : s.counter < 100
        · left
          have : ¬ c.convergence_range < r.dist := by
            intro hlt
            exact hg ⟨decide_eq_true hlt, decide_eq_true hcnt⟩
          exact le_of_not_lt this
        · exact Or.inr (Or.inl (by omega))

/-- C5: `calibrate` terminates after at most 100 iterations, or as soon as
the repetition-averaged travel time is within the configured tolerance of
the target, or on the both-edged break; in every case it returns the
last-evaluated parameter pair together with its averaged travel time
(`result_travel_time` is the measurement of the final iteration and
`dist` its deviation from target), even when the ceiling is reached
without convergence. -/
theorem c5_calibrate_termination_and_result (c : Calibration)
    (meas : Nat → ℚ) (lag entry lagStep entryStep : ℚ) :
    ∃ r, Calibration.calibrate c meas lag entry lagStep entryStep =
        some r ∧
      1 ≤ r.counter ∧ r.counter ≤ 100 ∧
      (r.dist ≤ c.convergence_range ∨ r.counter = 100 ∨
        r.bothEdged = true) ∧
      r.dist = |r.result_travel_time - c.target_travel_time| ∧
      r.result_travel_time = meas r.counter :=
  calibLoop_spec c meas 100 ⟨lag, entry, lagStep, entryStep, none, 0⟩ none
    (by show (100 : Nat) ≤ 0 + 100; omega)
    (by show (0 : Nat) ≤ 100; omega) ⟨rfl, rfl⟩

end ClaimTheorems
